import Mathlib

/-!
News aggregator front end (`static/js/script.js`).

A shallow embedding of the browser-side script: the module-level variables
become a `State` record, every function becomes a function on that record,
and what a function does to the outside world (network requests, toasts,
modals, writes into the page) is returned as an ordered list of `Effect`s.

Conventions of the embedding.

* A JavaScript value that is `null`/`undefined` or a string is an
  `Option String`; its truthiness is `truthy`.
* A JavaScript object used as a string map (`params`) is the list of its own
  enumerable entries in enumeration order.
* Page indices and article ids are integers (`Int`); the script only meets
  them inside the safe-integer range of a JavaScript number.
* An `await fetch(...)` is resolved by an `Outcome` handed to the function:
  the script is single-threaded and its handlers only suspend at these
  points.
* The page (`index.html`) is not part of the script. Elements looked up by
  id are taken to be present, so a call such as `showToast` is recorded as
  the effect it has on such a page.
-/

namespace NewsAggregator

/-! ## Values -/

/-- Entries of a string map, in enumeration order. -/
abbrev Params := List (String × String)

/-- Truthiness of a string: every string but the empty one. -/
def truthyStr (s : String) : Bool := decide (s ≠ "")

/-- Truthiness of a value that is `null`/`undefined` or a string. -/
def truthy : Option String → Bool
  | none => false
  | some s => truthyStr s

/-- The value kept in `currentUserId`: a string when read back from
`localStorage`, the raw `id` of the login response (a number) otherwise. -/
inductive UserId where
  | text (s : String)
  | number (n : Int)
  deriving DecidableEq, Repr

/-- Truthiness of an optional user id. -/
def truthyId : Option UserId → Bool
  | none => false
  | some (UserId.text s) => truthyStr s
  | some (UserId.number n) => decide (n ≠ 0)

/-- `API_BASE` (line 48). -/
def API_BASE : String := ""

/-! ## URLs and requests -/

/-- A `URL` object: the text it was built from and the entries of its
`searchParams`. The listing routes handed to `fetchArticles` carry no query
component of their own, so a fresh URL starts with no entries. -/
structure URL where
  address : String
  searchParams : Params
  deriving DecidableEq, Repr

/-- `url.searchParams.append(name, value)`: adds one entry at the end. -/
def URL.append (u : URL) (name value : String) : URL :=
  { u with searchParams := u.searchParams ++ [(name, value)] }

/-- `url.searchParams.delete(name)`: removes every entry called `name`. -/
def URL.delete (u : URL) (name : String) : URL :=
  { u with searchParams := u.searchParams.filter (fun e => decide (e.1 ≠ name)) }

/-- The `for (const key in params)` loop of lines 117-121. -/
def appendParams (u : URL) (params : Params) : URL :=
  params.foldl (fun acc e => acc.append e.1 e.2) u

/-- A call of `fetch`: method, address, headers and, when one is sent, the
body. -/
structure Request where
  method : String
  url : URL
  headers : List (String × String)
  body : Option String := none
  deriving DecidableEq, Repr

/-! ## Data received from the backend -/

/-- An article as the script reads it: every field it looks at, absent
fields as `none`; `sourceName` is `article.source.name`. -/
structure Article where
  id : Int
  title : Option String
  newsTitle : Option String
  description : Option String
  summary : Option String
  imageUrl : Option String
  url : Option String
  publishedDate : Option String
  sourceName : Option String
  isRead : Option Bool
  deriving DecidableEq, Repr

/-- An entry of the bookmark listing: the script reads its `id` only. -/
structure Bookmark where
  id : Int
  deriving DecidableEq, Repr

/-- A page of results: the three fields the script reads, each possibly
absent from the decoded body. -/
structure PageData (α : Type) where
  content : Option (List α)
  number : Option Int
  totalPages : Option Int
  deriving DecidableEq, Repr

/-- A decoded JSON body: its `message` field, if it has one, and the fields
read from it as a payload. -/
structure Body (α : Type) where
  message : Option String
  data : α
  deriving DecidableEq, Repr

/-- A response: its status and what `res.json()` settles to, the decoded body
or the message of the decoder's error. -/
structure Response (α : Type) where
  status : Nat
  json : Except String (Body α)

/-- The `ok` flag of a response: status in the range 200-299. -/
def Response.ok {α : Type} (res : Response α) : Bool :=
  decide (200 ≤ res.status) && decide (res.status ≤ 299)

/-- How an awaited `fetch` settles: rejected with an error message (network
failure) or resolved with a response. -/
inductive Outcome (α : Type) where
  | rejected (message : String)
  | resolved (res : Response α)

/-! ## Pagination controls -/

/-- Which statement of `renderPagination` emitted a control. -/
inductive ControlKind where
  | previous
  | pageNumber
  | next
  deriving DecidableEq, Repr

/-- One `<li><button ...>` of the pagination list: its class attribute, the
four values written into the `fetchArticles` call of its `onclick`, and its
text. -/
structure Button where
  kind : ControlKind
  cls : String
  endpoint : String
  page : Int
  params : Params
  readStatusFilter : String
  label : String
  deriving DecidableEq, Repr

/-- Class attribute of the button of the current page (line 419). -/
def activeClass : String := "px-3 py-2 rounded-lg bg-blue-600 text-white"

/-- Class attribute of every other button (lines 404, 419, 426). -/
def plainClass : String := "px-3 py-2 rounded-lg text-gray-600 hover:bg-blue-100"

/-- A control is highlighted when it carries the class of the current page. -/
def Button.highlighted (b : Button) : Bool := decide (b.cls = activeClass)

/-! ## Module state -/

/-- The module-level variables of the script (lines 49-61) together with the
two pieces of the browser it reads: `window.location.origin` and the value
of the `read-status-filter` select (absent when the page has no such
element), the visibility classes written by `setAuthUI`, and the content of
the `pagination` list. -/
structure State where
  origin : String
  authToken : Option String
  currentUser : Option String
  currentUserId : Option UserId
  currentModalArticleId : Option Int
  currentModalArticleIsRead : Bool
  currentEndpoint : String
  currentPage : Int
  currentParams : Params
  currentReadStatusFilter : String
  readStatusSelect : Option String
  authButtonsHidden : Bool
  userMenuHidden : Bool
  readStatusFilterHidden : Bool
  usernameText : String
  pagination : List Button
  deriving DecidableEq, Repr

/-- The view state: the four variables that describe the listing on show. -/
def viewState (s : State) : String × Int × Params × String :=
  (s.currentEndpoint, s.currentPage, s.currentParams, s.currentReadStatusFilter)

/-- Lines 113-129 of `fetchArticles`: the URL of the listing request. -/
def fetchArticlesUrl (s : State) (endpoint : String) (page : Int) (params : Params)
    (readStatusFilter : String) : URL :=
  let url : URL := { address := s.origin ++ API_BASE ++ endpoint, searchParams := [] }
  let url := url.append "page" (toString page)
  let url := url.append "size" "12"
  let url := appendParams url params
  if truthy s.authToken && truthyStr readStatusFilter && decide (readStatusFilter ≠ "ALL") then
    url.append "readStatus" readStatusFilter
  else
    url.delete "readStatus"

/-- The `headers` object built on lines 131-134 (and 219-222). -/
def authHeaders (s : State) : List (String × String) :=
  match s.authToken with
  | some t => if truthyStr t then [("Authorization", "Bearer " ++ t)] else []
  | none => []

/-- The request `fetchArticles` hands to `fetch` on line 136. -/
def fetchArticlesRequest (s : State) (endpoint : String) (page : Int) (params : Params)
    (readStatusFilter : String) : Request :=
  { method := "GET"
    url := fetchArticlesUrl s endpoint page params readStatusFilter
    headers := authHeaders s }

/-! ## Effects -/

/-- The messages the script writes into the article grid as one block of
markup (lines 147-150, 337, 577, 619-622). -/
inductive GridMessage where
  | noArticles
  | loadFailed (errorMessage : String)
  | noBookmarks
  | bookmarksFailed (errorMessage : String)
  deriving DecidableEq, Repr

/-- What the article detail modal shows: the placeholders of lines 200-205,
the article of lines 231-238, or the failure texts of lines 250-255. -/
inductive ModalView where
  | loading
  | loaded (title : Option String) (imageSrc : String) (summary : String) (href : Option String)
  | failed
  deriving DecidableEq, Repr

/-- What a function of the script does to the outside world, one constructor
per kind of call. -/
inductive Effect where
  | toast (title message : String)
  | showModal (modalId : String)
  | hideModal (modalId : String)
  | fetch (req : Request)
  | consoleError (label detail : String)
  | spinner (visible : Bool)
  | gridClear
  | grid (content : GridMessage)
  | renderArticles (articles : List Article)
  | feedTitle (text : String)
  | activeNav (activeId : String)
  | dropdownHide
  | modal (view : ModalView)
  | toggleButton (isRead : Bool)
  | toggleButtonLoading
  | toggleButtonHide
  | cardMark (articleId : Int) (isRead : Bool)
  | storageRemove (key : String)
  | storageSet (key value : String)
  deriving DecidableEq, Repr

/-- The network requests among a list of effects. -/
def requestsOf (effects : List Effect) : List Request :=
  effects.filterMap (fun e => match e with
    | Effect.fetch r => some r
    | _ => none)

/-- The toasts among a list of effects, as (title, message). -/
def toastsOf (effects : List Effect) : List (String × String) :=
  effects.filterMap (fun e => match e with
    | Effect.toast t m => some (t, m)
    | _ => none)

/-! ## `setAuthUI` (lines 65-85) -/

/-- `setAuthUI`: shows the user menu and the read-status filter, or the
login and register buttons, after the session variables. -/
def setAuthUI (s : State) : State :=
  if truthy s.authToken && truthy s.currentUser then
    { s with authButtonsHidden := true, userMenuHidden := false,
             usernameText := s.currentUser.getD "", readStatusFilterHidden := false }
  else
    { s with authButtonsHidden := false, userMenuHidden := true,
             readStatusFilterHidden := true }

/-! ## `renderPagination` (lines 391-429) -/

/-- The Previous control of lines 402-406. -/
def previousButton (number : Int) (currentEndpoint : String) (currentParams : Params)
    (readStatusFilter : String) : Button :=
  { kind := ControlKind.previous, cls := plainClass, endpoint := currentEndpoint,
    page := number - 1, params := currentParams, readStatusFilter := readStatusFilter,
    label := "Previous" }

/-- The page-number control emitted by one turn of the loop, lines 417-421. -/
def pageButton (number i : Int) (currentEndpoint : String) (currentParams : Params)
    (readStatusFilter : String) : Button :=
  { kind := ControlKind.pageNumber,
    cls := if i = number then activeClass else plainClass,
    endpoint := currentEndpoint, page := i, params := currentParams,
    readStatusFilter := readStatusFilter, label := toString (i + 1) }

/-- The Next control of lines 424-428. -/
def nextButton (number : Int) (currentEndpoint : String) (currentParams : Params)
    (readStatusFilter : String) : Button :=
  { kind := ControlKind.next, cls := plainClass, endpoint := currentEndpoint,
    page := number + 1, params := currentParams, readStatusFilter := readStatusFilter,
    label := "Next" }

/-- `maxPagesToShow` (line 409). -/
def maxPagesToShow : Int := 5

/-- The first page of the window, lines 410-415. -/
def startPage (number totalPages : Int) : Int :=
  let startPage := max 0 (number - maxPagesToShow / 2)
  let endPage := min (totalPages - 1) (startPage + maxPagesToShow - 1)
  if endPage - startPage + 1 < maxPagesToShow then
    max 0 (endPage - maxPagesToShow + 1)
  else
    startPage

/-- The last page of the window, line 411 (it is not reassigned later). -/
def endPage (number totalPages : Int) : Int :=
  let startPage := max 0 (number - maxPagesToShow / 2)
  min (totalPages - 1) (startPage + maxPagesToShow - 1)

/-- The pages visited by `for (let i = startPage; i <= endPage; i++)`. -/
def loopPages (startPage endPage : Int) : List Int :=
  (List.range (endPage - startPage + 1).toNat).map (fun (k : Nat) => startPage + (k : Int))

/-- `renderPagination(data, currentEndpoint, currentParams, readStatusFilter)`:
the content of the pagination list after the call, given its content before
(line 395 empties the list, so the earlier content is not read). An absent `number` makes every comparison of the function false (it is `NaN`
in the arithmetic), so no control is emitted then. -/
def renderPagination {α : Type} (_before : List Button) (data : PageData α)
    (currentEndpoint : String) (currentParams : Params) (readStatusFilter : String) :
    List Button :=
  let cleared : List Button := []
  match data.totalPages with
  | none => cleared
  | some totalPages =>
    if totalPages = 0 ∨ totalPages ≤ 1 then cleared
    else
      match data.number with
      | none => cleared
      | some number =>
        let previous :=
          if number > 0 then
            [previousButton number currentEndpoint currentParams readStatusFilter]
          else []
        let pages := (loopPages (startPage number totalPages) (endPage number totalPages)).map
          (fun i => pageButton number i currentEndpoint currentParams readStatusFilter)
        let next :=
          if number < totalPages - 1 then
            [nextButton number currentEndpoint currentParams readStatusFilter]
          else []
        cleared ++ previous ++ pages ++ next

/-! ## `fetchArticles` (lines 94-158) -/

/-- `value || fallback` for an optional string. -/
def orElse (value : Option String) (fallback : String) : String :=
  match value with
  | some m => if truthyStr m then m else fallback
  | none => fallback

/-- The generic message of lines 139, 226, 292 and 570. -/
def httpErrorMessage (status : Nat) : String :=
  "HTTP error! status: " ++ toString status

/-- The `try` block of a read path from the settled `fetch` to the decoded
payload (lines 136-141, 223-228, 564-572): the payload, or the message of
the error that reaches the `catch` block. -/
def readResponse {α : Type} (outcome : Outcome α) : Except String α :=
  match outcome with
  | Outcome.rejected message => Except.error message
  | Outcome.resolved res =>
    if !res.ok then
      match res.json with
      | Except.error decoderMessage => Except.error decoderMessage
      | Except.ok errorData =>
        Except.error (orElse errorData.message (httpErrorMessage res.status))
    else
      match res.json with
      | Except.error decoderMessage => Except.error decoderMessage
      | Except.ok body => Except.ok body.data

/-- The part of `fetchArticles` that runs before it suspends at
`await fetch` (lines 95-136): the view state is overwritten, the spinner is
shown, the grid is emptied and the request is sent. -/
def fetchArticlesStart (s : State) (endpoint : String) (page : Int) (params : Params)
    (readStatusFilter : String) : State × List Effect :=
  let s1 := { s with currentEndpoint := endpoint, currentPage := page,
                     currentParams := params, currentReadStatusFilter := readStatusFilter }
  (s1, [Effect.spinner true, Effect.gridClear,
    Effect.fetch (fetchArticlesRequest s1 endpoint page params readStatusFilter)])

/-- The part of `fetchArticles` that runs once the request has settled
(lines 137-157). -/
def fetchArticlesFinish (s : State) (endpoint : String) (params : Params)
    (readStatusFilter : String) (outcome : Outcome (PageData Article)) : State × List Effect :=
  match readResponse outcome with
  | Except.ok data =>
    ({ s with pagination :=
          renderPagination s.pagination data endpoint params readStatusFilter },
      [Effect.renderArticles (data.content.getD []), Effect.spinner false])
  | Except.error message =>
    (s, [Effect.consoleError "Error fetching articles:" message,
      Effect.grid (GridMessage.loadFailed message),
      Effect.toast "Error" "Failed to load news. See console for details.",
      Effect.spinner false])

/-- `fetchArticles(endpoint, page, params, readStatusFilter)`, with the
settled listing request as `outcome`. -/
def fetchArticles (s : State) (endpoint : String) (page : Int) (params : Params)
    (readStatusFilter : String) (outcome : Outcome (PageData Article)) :
    State × List Effect :=
  let started := fetchArticlesStart s endpoint page params readStatusFilter
  let finished := fetchArticlesFinish started.1 endpoint params readStatusFilter outcome
  (finished.1, started.2 ++ finished.2)

/-! ## `showArticleDetail` (lines 192-259) -/

/-- The request of line 223. -/
def articleDetailRequest (s : State) (articleId : Int) : Request :=
  { method := "GET"
    url := { address := s.origin ++ API_BASE ++ "/articles/" ++ toString articleId,
             searchParams := [] }
    headers := authHeaders s }

/-- The image shown in the modal, lines 233-235. -/
def modalImage (imageUrl : Option String) : String :=
  match imageUrl with
  | some u =>
    if truthyStr u && (u.startsWith "http://" || u.startsWith "https://") then u
    else "https://placehold.co/600x400/E0E0E0/333333?text=No+Image+Available"
  | none => "https://placehold.co/600x400/E0E0E0/333333?text=No+Image+Available"

/-- `showArticleDetail(articleId)`, with the settled detail request as
`outcome`. -/
def showArticleDetail (s : State) (articleId : Int) (outcome : Outcome Article) :
    State × List Effect :=
  let start := [Effect.modal ModalView.loading,
    (if !truthy s.authToken then Effect.toggleButtonHide else Effect.toggleButtonLoading),
    Effect.showModal "articleDetailModal",
    Effect.fetch (articleDetailRequest s articleId)]
  match readResponse outcome with
  | Except.ok article =>
    let isRead := article.isRead.getD false
    ({ s with currentModalArticleId := some article.id, currentModalArticleIsRead := isRead },
      start ++ [Effect.modal (ModalView.loaded article.title (modalImage article.imageUrl)
          (orElse article.summary
            (orElse article.description "No summary available for this article."))
          article.url)]
        ++ (if truthy s.authToken then [Effect.toggleButton isRead] else []))
  | Except.error message =>
    (s, start ++ [Effect.consoleError "Error fetching article details for modal:" message,
      Effect.modal ModalView.failed, Effect.toggleButtonHide,
      Effect.toast "Error" "Failed to load article details."])

/-! ## `toggleArticleReadStatus` (lines 276-326) -/

/-- A request that carries the bearer token unconditionally (lines 284-289,
510-515, 564-566, 586-588). -/
def bearerRequest (s : State) (method address : String) : Request :=
  { method := method
    url := { address := address, searchParams := [] }
    headers := [("Authorization", "Bearer " ++ (s.authToken.getD "null"))] }

/-- The error message of a failed write, lines 292-298: the `message` of the
body when it decodes and has one, the status message otherwise. -/
def writeFailureMessage {α : Type} (res : Response α) : String :=
  match res.json with
  | Except.error _ => httpErrorMessage res.status
  | Except.ok errorData => orElse errorData.message (httpErrorMessage res.status)

/-- `toggleArticleReadStatus(articleId, newStatus)`, with the settled PUT as
`outcome` and the settled listing request of the replay as `listing`. -/
def toggleArticleReadStatus (s : State) (articleId : Int) (newStatus : Bool)
    (outcome : Outcome Unit) (listing : Outcome (PageData Article)) : State × List Effect :=
  if !truthy s.authToken || !truthyId s.currentUserId then
    (s, [Effect.toast "Login Required" "Please login to mark articles.",
         Effect.showModal "loginModal"])
  else
    let request := Effect.fetch (bearerRequest s "PUT"
      (s.origin ++ API_BASE ++ "/articles/" ++ toString articleId
        ++ "/read-status?markAsRead=" ++ toString newStatus))
    let failure := fun (message : String) =>
      (s, [request, Effect.consoleError "Error toggling read status:" message,
           Effect.toast "Error" (orElse (some message) "Failed to update read status.")])
    match outcome with
    | Outcome.rejected message => failure message
    | Outcome.resolved res =>
      if !res.ok then failure (writeFailureMessage res)
      else
        let s1 := { s with currentModalArticleIsRead := newStatus }
        let replay := fetchArticles s1 s1.currentEndpoint s1.currentPage s1.currentParams
          s1.currentReadStatusFilter listing
        (replay.1, [request, Effect.toggleButton newStatus, Effect.cardMark articleId newStatus,
          Effect.toast "Status Updated"
            ("Article marked as " ++ (if newStatus then "read" else "unread") ++ ".")]
          ++ replay.2)

/-! ## `bookmarkArticle` (lines 502-529) -/

/-- `bookmarkArticle(articleId)`, with the settled POST as `outcome`. -/
def bookmarkArticle (s : State) (articleId : Int) (outcome : Outcome Unit) :
    State × List Effect :=
  if !truthy s.authToken || !truthyId s.currentUserId then
    (s, [Effect.toast "Login Required" "Please login to bookmark articles.",
         Effect.showModal "loginModal"])
  else
    let request := Effect.fetch (bearerRequest s "POST"
      (s.origin ++ API_BASE ++ "/bookmarks?articleId=" ++ toString articleId))
    let failure := fun (message : String) =>
      (s, [request, Effect.consoleError "Error bookmarking article:" message,
           Effect.toast "Error" (orElse (some message) "Could not bookmark article.")])
    match outcome with
    | Outcome.rejected message => failure message
    | Outcome.resolved res =>
      if res.ok then
        (s, [request, Effect.toast "Bookmarked" "Article bookmarked successfully!"])
      else if res.status = 409 then
        (s, [request, Effect.toast "Already Bookmarked"
          "This article is already in your bookmarks."])
      else
        match res.json with
        | Except.error decoderMessage => failure decoderMessage
        | Except.ok err => failure (orElse err.message "Could not bookmark article.")

/-! ## Navigation (lines 453-481, 532-545) -/

/-- The filter read from the `read-status-filter` select, `ALL` when the page
has no such element (lines 457-458, 467-468, 477-478). -/
def selectedReadStatus (s : State) : String :=
  s.readStatusSelect.getD "ALL"

/-- A navigation handler that names the feed, calls `fetchArticles` for the
first page of `endpoint` with the selected read-status filter and marks its
button: the shape shared by `loadTopHeadlines`, `loadMostViewed` and
`loadLatestNews`, up to the point where the handler returns. -/
def loadFeedStart (s : State) (title endpoint button : String) : State × List Effect :=
  let started := fetchArticlesStart s endpoint 0 [] (selectedReadStatus s)
  (started.1, [Effect.feedTitle title] ++ started.2 ++ [Effect.activeNav button])

/-- A navigation handler of that shape together with the completion of its
listing request. -/
def loadFeed (s : State) (title endpoint button : String)
    (outcome : Outcome (PageData Article)) : State × List Effect :=
  let started := loadFeedStart s title endpoint button
  let finished := fetchArticlesFinish started.1 endpoint [] (selectedReadStatus s) outcome
  (finished.1, started.2 ++ finished.2)

/-- `loadTopHeadlines()` (lines 454-461). -/
def loadTopHeadlines (s : State) (outcome : Outcome (PageData Article)) : State × List Effect :=
  loadFeed s "Top Headlines" "/articles/top-headlines" "topHeadlinesBtn" outcome

/-- `loadMostViewed()` (lines 464-471). -/
def loadMostViewed (s : State) (outcome : Outcome (PageData Article)) : State × List Effect :=
  loadFeed s "Most Viewed" "/articles/most-viewed" "mostViewedBtn" outcome

/-- `loadLatestNews()` (lines 474-481). -/
def loadLatestNews (s : State) (outcome : Outcome (PageData Article)) : State × List Effect :=
  loadFeed s "Latest Headlines" "/articles/latest" "latestNewsBtn" outcome

/-- `showPersonalizedFeed()`, with the settled listing request as `outcome`. -/
def showPersonalizedFeed (s : State) (outcome : Outcome (PageData Article)) :
    State × List Effect :=
  if !truthy s.authToken || !truthyId s.currentUserId then
    (s, [Effect.toast "Login Required" "Please login to view your personalized feed.",
         Effect.showModal "loginModal"])
  else
    let started := fetchArticlesStart s "/articles/personalized" 0 [] "ALL"
    let finished := fetchArticlesFinish started.1 "/articles/personalized" [] "ALL" outcome
    (finished.1, [Effect.feedTitle "My Personalized Feed"] ++ started.2
      ++ [Effect.activeNav "", Effect.dropdownHide] ++ finished.2)

/-! ## `showMyBookmarks` (lines 548-634) -/

/-- What one detail request contributes to `fullArticles` (lines 585-601):
the decoded article, or nothing when the request is rejected, the response is
not ok or its body does not decode. -/
def detailArticle (outcome : Outcome Article) : Option Article :=
  match outcome with
  | Outcome.rejected _ => none
  | Outcome.resolved res =>
    if !res.ok then none
    else
      match res.json with
      | Except.error _ => none
      | Except.ok body => some body.data

/-- What one detail request writes to the console (lines 591, 596). -/
def detailLog (id : Int) (outcome : Outcome Article) : List Effect :=
  match outcome with
  | Outcome.rejected message =>
    [Effect.consoleError ("Error fetching article " ++ toString id ++ ":") message]
  | Outcome.resolved res =>
    if !res.ok then
      [Effect.consoleError
        ("Failed to fetch article " ++ toString id ++ ": " ++ toString res.status) ""]
    else
      match res.json with
      | Except.error message =>
        [Effect.consoleError ("Error fetching article " ++ toString id ++ ":") message]
      | Except.ok _ => []

/-- Lines 605-609: an article without `isRead` is taken as read. -/
def assumeRead (article : Article) : Article :=
  match article.isRead with
  | none => { article with isRead := some true }
  | some _ => article

/-- `showMyBookmarks()`, with the settled bookmark listing as `bookmarks` and
the settled detail request of each article id as `detail`. The detail
requests are sent in bookmark order; their console messages are listed in
that order too. -/
def showMyBookmarks (s : State) (bookmarks : Outcome (PageData Bookmark))
    (detail : Int → Outcome Article) : State × List Effect :=
  if !truthy s.authToken || !truthyId s.currentUserId then
    (s, [Effect.toast "Login Required" "Please login to view your bookmarks.",
         Effect.showModal "loginModal"])
  else
    let start := [Effect.feedTitle "My Bookmarks", Effect.gridClear, Effect.spinner true,
      Effect.fetch (bearerRequest s "GET" (s.origin ++ API_BASE ++ "/bookmarks/my-bookmarks"))]
    let failure := fun (message : String) =>
      (s, start ++ [Effect.consoleError "Error fetching my bookmarks:" message,
        Effect.grid (GridMessage.bookmarksFailed message),
        Effect.toast "Error" "Failed to load bookmarks. See console for details.",
        Effect.spinner false, Effect.dropdownHide, Effect.activeNav ""])
    match readResponse bookmarks with
    | Except.error message => failure message
    | Except.ok bookmarkData =>
      match bookmarkData.content with
      | none => failure "bookmarkData.content is undefined"
      | some content =>
        let bookmarkedArticleIds := content.map (fun b => b.id)
        if bookmarkedArticleIds.length = 0 then
          ({ s with pagination := [] },
            start ++ [Effect.grid GridMessage.noBookmarks, Effect.spinner false,
              Effect.spinner false, Effect.dropdownHide])
        else
          let fullArticles :=
            (bookmarkedArticleIds.filterMap (fun id => detailArticle (detail id))).map assumeRead
          ({ s with pagination :=
                renderPagination s.pagination bookmarkData "/bookmarks/my-bookmarks" [] "ALL" },
            start
              ++ bookmarkedArticleIds.map (fun id => Effect.fetch (bearerRequest s "GET"
                  (s.origin ++ API_BASE ++ "/articles/" ++ toString id)))
              ++ (bookmarkedArticleIds.map (fun id => detailLog id (detail id))).flatten
              ++ [Effect.renderArticles fullArticles, Effect.spinner false,
                  Effect.dropdownHide, Effect.activeNav ""])

/-! ## Logout (lines 690-703) -/

/-- The click handler of `logoutBtn`, with the settled listing request of its
`loadLatestNews()` as `outcome`. -/
def logout (s : State) (outcome : Outcome (PageData Article)) : State × List Effect :=
  let s1 := { s with authToken := none, currentUser := none, currentUserId := none }
  let s2 := setAuthUI s1
  let started := loadFeedStart s2 "Latest Headlines" "/articles/latest" "latestNewsBtn"
  let finished :=
    fetchArticlesFinish started.1 "/articles/latest" [] (selectedReadStatus s2) outcome
  (finished.1,
    [Effect.storageRemove "token", Effect.storageRemove "username",
      Effect.storageRemove "userId", Effect.toast "Logged Out" "You have been logged out."]
      ++ started.2 ++ [Effect.dropdownHide] ++ finished.2)

/-! ## The `onclick` attribute of a pagination control (lines 404, 419, 426) -/

/-- The double quote character. -/
def doubleQuote : Char := Char.ofNat 34

/-- The single quote character. -/
def singleQuote : Char := Char.ofNat 39

/-- The backslash character. -/
def backslash : Char := Char.ofNat 92

/-- A hexadecimal digit in lower case. -/
def hexDigit (n : Nat) : Char :=
  if n < 10 then Char.ofNat (48 + n) else Char.ofNat (87 + n)

/-- How `JSON.stringify` writes one character of a string. -/
def jsonEscape (c : Char) : List Char :=
  if c = doubleQuote then [backslash, doubleQuote]
  else if c = backslash then [backslash, backslash]
  else if c = Char.ofNat 8 then [backslash, 'b']
  else if c = Char.ofNat 12 then [backslash, 'f']
  else if c = Char.ofNat 10 then [backslash, 'n']
  else if c = Char.ofNat 13 then [backslash, 'r']
  else if c = Char.ofNat 9 then [backslash, 't']
  else if c.toNat < 32 then
    [backslash, 'u', '0', '0', hexDigit (c.toNat / 16), hexDigit (c.toNat % 16)]
  else [c]

/-- The characters `JSON.stringify` prints for a string: the escaped
characters between double quotes. -/
def jsonQuoteChars (s : String) : List Char :=
  [doubleQuote] ++ (s.toList.map jsonEscape).flatten ++ [doubleQuote]

/-- The characters `JSON.stringify` prints for a string map: the quoted
entries, comma separated, between braces. -/
def jsonStringifyChars (params : Params) : List Char :=
  [Char.ofNat 123]
    ++ List.intercalate [','] (params.map (fun e => jsonQuoteChars e.1 ++ [':'] ++ jsonQuoteChars e.2))
    ++ [Char.ofNat 125]

/-- `JSON.stringify(params)`. -/
def jsonStringify (params : Params) : String :=
  String.mk (jsonStringifyChars params)

/-- The text interpolated between the double quotes of `onclick="..."`:
the call of `fetchArticles` with the endpoint and the filter between single
quotes, the page as a number and the parameters as `JSON.stringify` prints
them. -/
def Button.onclickText (b : Button) : String :=
  "fetchArticles(" ++ String.singleton singleQuote ++ b.endpoint
    ++ String.singleton singleQuote ++ ", " ++ toString b.page ++ ", "
    ++ jsonStringify b.params ++ ", " ++ String.singleton singleQuote ++ b.readStatusFilter
    ++ String.singleton singleQuote ++ ")"

/-- The value the HTML parser gives to a double-quoted attribute whose text
starts right after the opening quote: everything up to the next double quote
(character references are left as they are). -/
def attributeValue (text : String) : String :=
  String.mk (text.toList.takeWhile (fun c => decide (c ≠ doubleQuote)))

/-- The source of the click handler a control carries once its markup has
been parsed: the value of its `onclick` attribute. -/
def Button.handlerSource (b : Button) : String :=
  attributeValue b.onclickText

/-! ## `renderArticles` (lines 330-388) -/

/-- The fallback image of lines 345 and 356. -/
def fallbackImage : String := "https://placehold.co/600x350/E0E0E0/333333?text=News+Image"

/-- Whether `needle` occurs in a list of characters. -/
def includesChars (needle : List Char) : List Char → Bool
  | [] => needle.isEmpty
  | c :: rest => needle.isPrefixOf (c :: rest) || includesChars needle rest

/-- `text.includes(needle)`. -/
def includes (text needle : String) : Bool :=
  includesChars needle.toList text.toList

/-- `text.startsWith(head)`. -/
def startsWith (text head : String) : Bool :=
  head.toList.isPrefixOf text.toList

/-- Lines 343-346: an image address on `via.placeholder.com` is overwritten
with the fallback image. -/
def replaceBrokenPlaceholder (imageUrl : Option String) : Option String :=
  match imageUrl with
  | some u => if truthyStr u && includes u "via.placeholder.com" then some fallbackImage else some u
  | none => none

/-- Lines 354-356: the address is kept when it starts with `http://` or
`https://`, the fallback image is used otherwise. -/
def articleImage (imageUrl : Option String) : String :=
  match imageUrl with
  | some u =>
    if truthyStr u && (startsWith u "http://" || startsWith u "https://") then u
    else fallbackImage
  | none => fallbackImage

/-- The read/unread badge of line 373: its icon classes and its text. -/
structure Badge where
  icon : String
  text : String
  deriving DecidableEq, Repr

/-- One card of the article grid: the values interpolated into the markup of
lines 365-385. `date` holds the published date that is printed with
`toLocaleDateString`, `none` standing for `N/A`; `shareUrl` is the first
argument of `createSocialShareButtons`. -/
structure Card where
  readClass : String
  articleId : Int
  imageSrc : String
  title : String
  description : String
  sourceName : String
  date : Option String
  badge : Option Badge
  shareUrl : String
  deriving DecidableEq, Repr

/-- The body of the `forEach` of lines 341-387 for one article. -/
def renderCard (s : State) (article : Article) : Card :=
  let imageUrl := replaceBrokenPlaceholder article.imageUrl
  let articleTitle := orElse article.title (orElse article.newsTitle "Untitled Article")
  let articleDescription :=
    orElse article.description (orElse article.summary "No description available.")
  let articleDate := if truthy article.publishedDate then article.publishedDate else none
  let isRead := article.isRead.getD false
  { readClass := if isRead then "article-read" else ""
    articleId := article.id
    imageSrc := articleImage imageUrl
    title := articleTitle
    description := articleDescription
    sourceName := orElse article.sourceName "Unknown Source"
    date := articleDate
    badge :=
      if truthy s.authToken then
        some (if isRead then { icon := "fas fa-eye text-gray-500", text := "Read" }
          else { icon := "fas fa-eye-slash text-blue-500", text := "Unread" })
      else none
    shareUrl := orElse article.url "#" }

/-- What the article grid holds after a render: a message or the cards. -/
inductive GridView where
  | message (m : GridMessage)
  | cards (cs : List Card)
  deriving DecidableEq, Repr

/-- `renderArticles(articles)`: the content of the article grid after the
call. -/
def renderArticles (s : State) (articles : List Article) : GridView :=
  if articles.length = 0 then GridView.message GridMessage.noArticles
  else GridView.cards (articles.map (renderCard s))

/-- The articles handed to `renderArticles` by a list of effects, call after
call. -/
def articlesRendered (effects : List Effect) : List Article :=
  (effects.filterMap (fun e => match e with
    | Effect.renderArticles articles => some articles
    | _ => none)).flatten

/-! ## `searchNews` (lines 433-451) -/

/-- `searchNews()`, with the values of the `searchInput` and
`category-filter` elements as `keyword` and `category` (the empty string when
the element is missing) and the settled listing request as `outcome`. -/
def searchNews (s : State) (keyword category : String)
    (outcome : Outcome (PageData Article)) : State × List Effect :=
  let params : Params :=
    (if truthyStr keyword then [("keyword", keyword)] else [])
      ++ (if truthyStr category then [("category", category)] else [])
  fetchArticles s "/articles/search" 0 params (selectedReadStatus s) outcome

/-! ## Session storage, page load and login (lines 49-61, 705-739, 814-816) -/

/-- The three `localStorage` entries of the script. -/
structure Storage where
  token : Option String
  username : Option String
  userId : Option String
  deriving DecidableEq, Repr

/-- A `localStorage` without any entry of the script. -/
def emptyStorage : Storage := { token := none, username := none, userId := none }

/-- What one effect does to `localStorage`. -/
def Storage.apply (st : Storage) (e : Effect) : Storage :=
  match e with
  | Effect.storageRemove key =>
    if key = "token" then { st with token := none }
    else if key = "username" then { st with username := none }
    else if key = "userId" then { st with userId := none }
    else st
  | Effect.storageSet key value =>
    if key = "token" then { st with token := some value }
    else if key = "username" then { st with username := some value }
    else if key = "userId" then { st with userId := some value }
    else st
  | _ => st

/-- Whether an awaited write request failed: it was rejected, or its response
is not ok. -/
def Outcome.failed {α : Type} (outcome : Outcome α) : Bool :=
  match outcome with
  | Outcome.rejected _ => true
  | Outcome.resolved res => !res.ok

/-- What a list of effects, in order, does to `localStorage`. -/
def Storage.run (st : Storage) (effects : List Effect) : Storage :=
  effects.foldl Storage.apply st

/-- `localStorage.getItem(key) || null`. -/
def storedOrNull (value : Option String) : Option String :=
  if truthy value then value else none

/-- The module variables as lines 49-61 initialise them from `localStorage`;
the page itself (origin, filter select, visibility classes, pagination list)
is taken from `page`. -/
def initialState (page : State) (storage : Storage) : State :=
  { page with
    authToken := storedOrNull storage.token
    currentUser := storedOrNull storage.username
    currentUserId := (storedOrNull storage.userId).map UserId.text
    currentModalArticleId := none
    currentModalArticleIsRead := false
    currentEndpoint := "/articles/latest"
    currentPage := 0
    currentParams := []
    currentReadStatusFilter := "ALL" }

/-- Loading the page: the module variables are initialised, and the
`DOMContentLoaded` handler calls `setAuthUI()` and `loadLatestNews()` (lines
815-816), whose listing request settles as `outcome`. -/
def pageLoad (page : State) (storage : Storage) (outcome : Outcome (PageData Article)) :
    State × List Effect :=
  loadLatestNews (setAuthUI (initialState page storage)) outcome

/-- The body of a login response: the three fields the script reads. -/
structure LoginData where
  accessToken : Option String
  username : Option String
  id : Option UserId
  deriving DecidableEq, Repr

/-- `String(value)` for an optional string. -/
def stringOf (value : Option String) : String :=
  value.getD "undefined"

/-- `String(value)` for an optional user id. -/
def stringOfId (value : Option UserId) : String :=
  match value with
  | some (UserId.text t) => t
  | some (UserId.number n) => toString n
  | none => "undefined"

/-- The request of lines 714-718. -/
def loginRequest (s : State) (username password : String) : Request :=
  { method := "POST"
    url := { address := s.origin ++ API_BASE ++ "/auth/login", searchParams := [] }
    headers := [("Content-Type", "application/json")]
    body := some (jsonStringify [("username", username), ("password", password)]) }

/-- The submit handler of the login form, with the values of the two inputs,
the settled login request as `outcome` and the settled listing request of
its `loadLatestNews()` as `listing`. -/
def login (s : State) (username password : String) (outcome : Outcome LoginData)
    (listing : Outcome (PageData Article)) : State × List Effect :=
  let request := Effect.fetch (loginRequest s username password)
  let failure := fun (message : String) =>
    (s, [request, Effect.consoleError "Login error:" message,
         Effect.toast "Error" "An error occurred during login."])
  match outcome with
  | Outcome.rejected message => failure message
  | Outcome.resolved res =>
    match res.json with
    | Except.error decoderMessage => failure decoderMessage
    | Except.ok data =>
      if res.ok then
        let s1 := { s with authToken := data.data.accessToken,
                           currentUser := data.data.username,
                           currentUserId := data.data.id }
        let s2 := setAuthUI s1
        let started := loadFeedStart s2 "Latest Headlines" "/articles/latest" "latestNewsBtn"
        let finished :=
          fetchArticlesFinish started.1 "/articles/latest" [] (selectedReadStatus s2) listing
        (finished.1,
          [request, Effect.storageSet "token" (stringOf s1.authToken),
            Effect.storageSet "username" (stringOf s1.currentUser),
            Effect.storageSet "userId" (stringOfId s1.currentUserId),
            Effect.toast "Login Success" "Welcome back!", Effect.hideModal "loginModal"]
            ++ started.2 ++ finished.2)
      else
        (s, [request, Effect.toast "Login Failed" (orElse data.message "Invalid credentials")])

/-- The login responses of the backend contract: a response that is ok and
decodes carries a non-empty `accessToken` and a non-empty `username`. -/
def wellFormedLogin (outcome : Outcome LoginData) : Prop :=
  match outcome with
  | Outcome.rejected _ => True
  | Outcome.resolved res =>
    match res.json with
    | Except.error _ => True
    | Except.ok data =>
      res.ok = true → truthy data.data.accessToken = true ∧ truthy data.data.username = true

/-- The states of the script and of `localStorage` reached from a first page
load on an empty storage through any sequence of page loads, logouts and
logins whose responses are as `wellFormedLogin` describes. -/
inductive Reached : State → Storage → Prop where
  | firstVisit (page : State) (outcome : Outcome (PageData Article)) :
      Reached (pageLoad page emptyStorage outcome).1
        (emptyStorage.run (pageLoad page emptyStorage outcome).2)
  | reload {s : State} {st : Storage} (h : Reached s st) (page : State)
      (outcome : Outcome (PageData Article)) :
      Reached (pageLoad page st outcome).1 (st.run (pageLoad page st outcome).2)
  | login {s : State} {st : Storage} (h : Reached s st) (username password : String)
      (outcome : Outcome LoginData) (listing : Outcome (PageData Article))
      (hw : wellFormedLogin outcome) :
      Reached (login s username password outcome listing).1
        (st.run (login s username password outcome listing).2)
  | logout {s : State} {st : Storage} (h : Reached s st)
      (outcome : Outcome (PageData Article)) :
      Reached (logout s outcome).1 (st.run (logout s outcome).2)

/-- The auth UI agrees with the session: the user menu and the read-status
filter are shown only while a token is held, the login and register buttons
only while none is held, and exactly one of the two groups is shown. -/
def authUIConsistent (s : State) : Prop :=
  (s.userMenuHidden = false → truthy s.authToken = true) ∧
  (s.readStatusFilterHidden = false → truthy s.authToken = true) ∧
  (s.authButtonsHidden = false → truthy s.authToken = false) ∧
  (s.authButtonsHidden = !s.userMenuHidden) ∧
  (s.readStatusFilterHidden = s.userMenuHidden)

/-! ## Sample states -/

/-- A state right after page load with nothing in `localStorage`. -/
def anonymousState : State :=
  { origin := "http://localhost:8080", authToken := none, currentUser := none,
    currentUserId := none, currentModalArticleId := none, currentModalArticleIsRead := false,
    currentEndpoint := "/articles/latest", currentPage := 0, currentParams := [],
    currentReadStatusFilter := "ALL", readStatusSelect := some "ALL",
    authButtonsHidden := false, userMenuHidden := true, readStatusFilterHidden := true,
    usernameText := "", pagination := [] }

/-- A state with a session held and the `UNREAD` filter selected. -/
def memberState : State :=
  { anonymousState with
    authToken := some "tok", currentUser := some "ann", currentUserId := some (UserId.number 7),
    currentReadStatusFilter := "UNREAD", readStatusSelect := some "UNREAD",
    authButtonsHidden := true, userMenuHidden := false, readStatusFilterHidden := false,
    usernameText := "ann" }

/-- A state with a partly cleared session: the token is gone, the user name
and user id are still held. -/
def staleState : State :=
  { memberState with authToken := none }

/-- A response of a gateway that answers with an HTML error page: status 502
and a body that `res.json()` cannot decode. -/
def badGateway (α : Type) : Response α :=
  { status := 502, json := Except.error "Unexpected token < in JSON at position 0" }

/-- The page-number controls among the controls of the pagination list. -/
def pageNumberControls (controls : List Button) : List Button :=
  controls.filter (fun b => decide (b.kind = ControlKind.pageNumber))

/-- A page as the backend sends it for `number` and `totalPages`. -/
def pageOf (number totalPages : Int) : PageData Article :=
  { content := some [], number := some number, totalPages := some totalPages }

/-- An article with nothing but an id and a title. -/
def plainArticle (id : Int) (title : String) : Article :=
  { id := id, title := some title, newsTitle := none, description := none, summary := none,
    imageUrl := none, url := none, publishedDate := none, sourceName := none, isRead := none }

/-- A response with status 200 whose body decodes to `data`. -/
def okResponse {α : Type} (data : α) : Response α :=
  { status := 200, json := Except.ok { message := none, data := data } }

/-- An article whose image is served by `via.placeholder.com`. -/
def placeholderArticle : Article :=
  { plainArticle 4 "story" with imageUrl := some "https://via.placeholder.com/600x350.png" }

/-- An article with an image of its own that the member has read. -/
def pictureArticle : Article :=
  { plainArticle 6 "story" with
    imageUrl := some "https://news.example.org/a.png", isRead := some true }

/-- A `localStorage` that holds a token and a user id, and an empty user
name. -/
def namelessStorage : Storage :=
  { token := some "tok", username := some "", userId := some "7" }

/-- The body of a login response with a token and an id, and no user name. -/
def namelessLogin : LoginData :=
  { accessToken := some "tok", username := none, id := some (UserId.number 7) }

/-- A response with status 500 whose body carries the message `boom`. -/
def serverError : Response Unit :=
  { status := 500, json := Except.ok { message := some "boom", data := () } }

/-- A bookmark listing with the three article ids 1, 2 and 3. -/
def threeBookmarks : PageData Bookmark :=
  { content := some [{ id := 1 }, { id := 2 }, { id := 3 }], number := some 0,
    totalPages := some 1 }

/-- Three detail requests of which the second is answered with status 404. -/
def secondFails (id : Int) : Outcome Article :=
  if id = 2 then Outcome.resolved { status := 404, json := Except.error "no body" }
  else Outcome.resolved (okResponse (plainArticle id "story"))

/-! ## Theorems: the listing request -/

theorem appendParams_searchParams (u : URL) (params : Params) :
    (appendParams u params).searchParams = u.searchParams ++ params := by
  induction params generalizing u with
  | nil => simp [appendParams]
  | cons e rest ih =>
    have h := ih (u.append e.1 e.2)
    simp only [appendParams, List.foldl_cons] at h ⊢
    rw [h]
    simp [URL.append]

theorem fetchArticlesUrl_searchParams (s : State) (endpoint : String) (page : Int)
    (params : Params) (f : String) :
    (fetchArticlesUrl s endpoint page params f).searchParams =
      if truthy s.authToken = true ∧ f ≠ "" ∧ f ≠ "ALL" then
        [("page", toString page), ("size", "12")] ++ params ++ [("readStatus", f)]
      else
        [("page", toString page), ("size", "12")]
          ++ params.filter (fun e => decide (e.1 ≠ "readStatus")) := by
  have hc : (truthy s.authToken && truthyStr f && decide (f ≠ "ALL")) = true ↔
      (truthy s.authToken = true ∧ f ≠ "" ∧ f ≠ "ALL") := by
    simp [truthyStr, and_assoc]
  unfold fetchArticlesUrl
  by_cases h : truthy s.authToken = true ∧ f ≠ "" ∧ f ≠ "ALL"
  · rw [if_pos h, if_pos (hc.mpr h)]
    simp [URL.append, appendParams_searchParams]
  · rw [if_neg h, if_neg (fun hp => h (hc.mp hp))]
    simp [URL.append, URL.delete, appendParams_searchParams]

theorem fetchArticles_requests (s : State) (endpoint : String) (page : Int) (params : Params)
    (f : String) (outcome : Outcome (PageData Article)) :
    requestsOf (fetchArticles s endpoint page params f outcome).2 =
      [fetchArticlesRequest s endpoint page params f] := by
  unfold fetchArticles fetchArticlesStart fetchArticlesFinish
  cases readResponse outcome <;> simp [requestsOf, fetchArticlesRequest, fetchArticlesUrl, authHeaders]

/-- C1: for a read-status filter among `ALL`, `READ`, `UNREAD`, the one
request sent by `fetchArticles` has a `readStatus` query parameter exactly
when a session token is held and the filter is not `ALL`; it then carries the
filter value, and in every other case no `readStatus` entry is left in the
query, whatever `params` holds. -/
theorem fetchArticles_readStatus_iff (s : State) (endpoint : String) (page : Int)
    (params : Params) (f : String) (outcome : Outcome (PageData Article))
    (hf : f = "ALL" ∨ f = "READ" ∨ f = "UNREAD") :
    ∃ r, requestsOf (fetchArticles s endpoint page params f outcome).2 = [r] ∧
      ((∃ v, ("readStatus", v) ∈ r.url.searchParams) ↔
        (truthy s.authToken = true ∧ f ≠ "ALL")) ∧
      ((truthy s.authToken = true ∧ f ≠ "ALL") → ("readStatus", f) ∈ r.url.searchParams) ∧
      (¬ (truthy s.authToken = true ∧ f ≠ "ALL") →
        ∀ v, ("readStatus", v) ∉ r.url.searchParams) := by
  refine ⟨_, fetchArticles_requests s endpoint page params f outcome, ?_⟩
  have hne : f ≠ "" := by
    rcases hf with h | h | h <;> subst h <;> decide
  have hq := fetchArticlesUrl_searchParams s endpoint page params f
  have hcond : (truthy s.authToken = true ∧ f ≠ "" ∧ f ≠ "ALL") ↔
      (truthy s.authToken = true ∧ f ≠ "ALL") := by
    constructor
    · intro h; exact ⟨h.1, h.2.2⟩
    · intro h; exact ⟨h.1, hne, h.2⟩
  have hnone : ¬ (truthy s.authToken = true ∧ f ≠ "ALL") →
      ∀ v, ("readStatus", v) ∉ (fetchArticlesUrl s endpoint page params f).searchParams := by
    intro hc v
    rw [hq, if_neg (fun h => hc (hcond.mp h))]
    simp
  have hsome : (truthy s.authToken = true ∧ f ≠ "ALL") →
      ("readStatus", f) ∈ (fetchArticlesUrl s endpoint page params f).searchParams := by
    intro hc
    rw [hq, if_pos (hcond.mpr hc)]
    simp
  refine ⟨?_, hsome, hnone⟩
  constructor
  · rintro ⟨v, hv⟩
    by_contra hc
    exact hnone hc v hv
  · intro hc
    exact ⟨f, hsome hc⟩

/-- C1, at a concrete input: a member asking for `UNREAD` articles. -/
theorem fetchArticles_readStatus_iff_witness :
    ∃ r, requestsOf (fetchArticles memberState "/articles/search" 2 [("keyword", "lean")]
        "UNREAD" (Outcome.rejected "offline")).2 = [r] ∧
      ((∃ v, ("readStatus", v) ∈ r.url.searchParams) ↔
        (truthy memberState.authToken = true ∧ "UNREAD" ≠ "ALL")) ∧
      ((truthy memberState.authToken = true ∧ "UNREAD" ≠ "ALL") →
        ("readStatus", "UNREAD") ∈ r.url.searchParams) ∧
      (¬ (truthy memberState.authToken = true ∧ "UNREAD" ≠ "ALL") →
        ∀ v, ("readStatus", v) ∉ r.url.searchParams) :=
  fetchArticles_readStatus_iff memberState "/articles/search" 2 [("keyword", "lean")]
    "UNREAD" (Outcome.rejected "offline") (by decide)

/-- C3: whatever the state before, after the logout handler has run the
request sent by any `fetchArticles` call has no header at all, hence no
`Authorization` header, and no `readStatus` query parameter. -/
theorem fetchArticles_after_logout (s : State) (logoutOutcome : Outcome (PageData Article))
    (endpoint : String) (page : Int) (params : Params) (f : String)
    (outcome : Outcome (PageData Article)) :
    ∃ r, requestsOf
        (fetchArticles (logout s logoutOutcome).1 endpoint page params f outcome).2 = [r] ∧
      r.headers = [] ∧
      (∀ v, ("Authorization", v) ∉ r.headers) ∧
      (∀ v, ("readStatus", v) ∉ r.url.searchParams) := by
  refine ⟨_, fetchArticles_requests _ endpoint page params f outcome, ?_⟩
  have htok : (logout s logoutOutcome).1.authToken = none := by
    unfold logout fetchArticlesFinish loadFeedStart fetchArticlesStart setAuthUI
    cases readResponse logoutOutcome <;> simp [truthy]
  have hh : (fetchArticlesRequest (logout s logoutOutcome).1 endpoint page params f).headers
      = [] := by
    simp [fetchArticlesRequest, authHeaders, htok]
  refine ⟨hh, ?_, ?_⟩
  · intro v
    rw [hh]
    simp
  · intro v
    show ("readStatus", v) ∉
      (fetchArticlesUrl (logout s logoutOutcome).1 endpoint page params f).searchParams
    rw [fetchArticlesUrl_searchParams, htok]
    simp [truthy]

/-- C4 as stated fails: without a session, the `readStatus` entry of `params`
is not in the query of the request. -/
theorem fetchArticles_drops_readStatus_entry :
    ("readStatus", "READ") ∈ ([("keyword", "lean"), ("readStatus", "READ")] : Params) ∧
    ("readStatus", "READ") ∉
      (fetchArticlesRequest anonymousState "/articles/search" 0
        [("keyword", "lean"), ("readStatus", "READ")] "ALL").url.searchParams := by
  refine ⟨by simp, ?_⟩
  show ("readStatus", "READ") ∉ (fetchArticlesUrl anonymousState "/articles/search" 0
        [("keyword", "lean"), ("readStatus", "READ")] "ALL").searchParams
  rw [fetchArticlesUrl_searchParams]
  simp [anonymousState, truthy]

/-- C4, amended: the query of the request sent by `fetchArticles` is `page`
with the given page, `size` with 12, then the entries of `params` in order
and, when a token is held and the filter is neither empty nor `ALL`, the
`readStatus` entry; in the other case the entries of `params` named
`readStatus` are left out, and every other entry is kept. -/
theorem fetchArticles_query (s : State) (endpoint : String) (page : Int)
    (params : Params) (f : String) (outcome : Outcome (PageData Article)) :
    ∃ r, requestsOf (fetchArticles s endpoint page params f outcome).2 = [r] ∧
      r.url.address = s.origin ++ endpoint ∧
      r.url.searchParams =
        (if truthy s.authToken = true ∧ f ≠ "" ∧ f ≠ "ALL" then
          [("page", toString page), ("size", "12")] ++ params ++ [("readStatus", f)]
        else
          [("page", toString page), ("size", "12")]
            ++ params.filter (fun e => decide (e.1 ≠ "readStatus"))) ∧
      (∀ e ∈ params, e.1 ≠ "readStatus" → e ∈ r.url.searchParams) := by
  refine ⟨_, fetchArticles_requests s endpoint page params f outcome, ?_, ?_, ?_⟩
  · show (fetchArticlesUrl s endpoint page params f).address = s.origin ++ endpoint
    unfold fetchArticlesUrl
    have ha : ∀ (u : URL) (ps : Params), (appendParams u ps).address = u.address := by
      intro u ps
      induction ps generalizing u with
      | nil => simp [appendParams]
      | cons e rest ih =>
        have h := ih (u.append e.1 e.2)
        simp only [appendParams, List.foldl_cons] at h ⊢
        rw [h]
        simp [URL.append]
    split <;> simp [URL.append, URL.delete, ha, API_BASE]
  · exact fetchArticlesUrl_searchParams s endpoint page params f
  · intro e he hne
    show e ∈ (fetchArticlesUrl s endpoint page params f).searchParams
    rw [fetchArticlesUrl_searchParams]
    split
    · simp [he]
    · simp [he, hne]

/-- C5: the request sent by `fetchArticles` carries an `Authorization` header
exactly when a session token is held; the header is then the only one and
reads `Bearer` followed by the token, and without a token the request has no
header at all. -/
theorem fetchArticles_authorization (s : State) (endpoint : String) (page : Int)
    (params : Params) (f : String) (outcome : Outcome (PageData Article)) :
    ∃ r, requestsOf (fetchArticles s endpoint page params f outcome).2 = [r] ∧
      ((∃ v, ("Authorization", v) ∈ r.headers) ↔ truthy s.authToken = true) ∧
      (∀ t, s.authToken = some t → t ≠ "" → r.headers = [("Authorization", "Bearer " ++ t)]) ∧
      (truthy s.authToken = false → r.headers = []) := by
  refine ⟨_, fetchArticles_requests s endpoint page params f outcome, ?_, ?_, ?_⟩
  · cases h : s.authToken with
    | none => simp [fetchArticlesRequest, authHeaders, h, truthy]
    | some t =>
      by_cases ht : t = ""
      · simp [fetchArticlesRequest, authHeaders, h, truthy, truthyStr, ht]
      · simp [fetchArticlesRequest, authHeaders, h, truthy, truthyStr, ht]
  · intro t h ht
    simp [fetchArticlesRequest, authHeaders, h, truthyStr, ht]
  · intro h
    cases ht : s.authToken with
    | none => simp [fetchArticlesRequest, authHeaders, ht]
    | some t =>
      rw [ht] at h
      simp [fetchArticlesRequest, authHeaders, ht, truthy] at h ⊢
      simp [h]

/-- C5, at concrete inputs: a member's request carries `Bearer tok`, an
anonymous visitor's request carries no header. -/
theorem fetchArticles_authorization_witness :
    (∃ r, requestsOf (fetchArticles memberState "/articles/latest" 0 [] "ALL"
        (Outcome.rejected "offline")).2 = [r] ∧
      r.headers = [("Authorization", "Bearer tok")]) ∧
    (∃ r, requestsOf (fetchArticles anonymousState "/articles/latest" 0 [] "ALL"
        (Outcome.rejected "offline")).2 = [r] ∧
      r.headers = []) := by
  constructor
  · obtain ⟨r, hr, _, h, _⟩ := fetchArticles_authorization memberState "/articles/latest" 0 []
      "ALL" (Outcome.rejected "offline")
    exact ⟨r, hr, h "tok" rfl (by decide)⟩
  · obtain ⟨r, hr, _, _, h⟩ := fetchArticles_authorization anonymousState "/articles/latest" 0 []
      "ALL" (Outcome.rejected "offline")
    exact ⟨r, hr, h rfl⟩

/-! ## Theorems: gated actions and error bodies -/

/-- C2: when the token or the user id is missing, each of the four gated
actions (`showPersonalizedFeed`, `showMyBookmarks`, `bookmarkArticle`,
`toggleArticleReadStatus`) sends no request, shows the `Login Required` toast,
opens the login modal and does nothing else, and returns the state (the view
state with it) unchanged. -/
theorem gated_actions_without_session (s : State)
    (h : truthy s.authToken = false ∨ truthyId s.currentUserId = false)
    (articleId : Int) (newStatus : Bool) (write : Outcome Unit)
    (listing : Outcome (PageData Article)) (bookmarks : Outcome (PageData Bookmark))
    (detail : Int → Outcome Article) :
    (requestsOf (showPersonalizedFeed s listing).2 = [] ∧
      (∃ message, (showPersonalizedFeed s listing).2 =
        [Effect.toast "Login Required" message, Effect.showModal "loginModal"]) ∧
      (showPersonalizedFeed s listing).1 = s ∧
      viewState (showPersonalizedFeed s listing).1 = viewState s) ∧
    (requestsOf (showMyBookmarks s bookmarks detail).2 = [] ∧
      (∃ message, (showMyBookmarks s bookmarks detail).2 =
        [Effect.toast "Login Required" message, Effect.showModal "loginModal"]) ∧
      (showMyBookmarks s bookmarks detail).1 = s ∧
      viewState (showMyBookmarks s bookmarks detail).1 = viewState s) ∧
    (requestsOf (bookmarkArticle s articleId write).2 = [] ∧
      (∃ message, (bookmarkArticle s articleId write).2 =
        [Effect.toast "Login Required" message, Effect.showModal "loginModal"]) ∧
      (bookmarkArticle s articleId write).1 = s ∧
      viewState (bookmarkArticle s articleId write).1 = viewState s) ∧
    (requestsOf (toggleArticleReadStatus s articleId newStatus write listing).2 = [] ∧
      (∃ message, (toggleArticleReadStatus s articleId newStatus write listing).2 =
        [Effect.toast "Login Required" message, Effect.showModal "loginModal"]) ∧
      (toggleArticleReadStatus s articleId newStatus write listing).1 = s ∧
      viewState (toggleArticleReadStatus s articleId newStatus write listing).1
        = viewState s) := by
  have hg : (!truthy s.authToken || !truthyId s.currentUserId) = true := by
    rcases h with h | h <;> simp [h]
  refine ⟨?_, ?_, ?_, ?_⟩
  · simp [showPersonalizedFeed, hg, requestsOf]
  · simp [showMyBookmarks, hg, requestsOf]
  · simp [bookmarkArticle, hg, requestsOf]
  · simp [toggleArticleReadStatus, hg, requestsOf]

/-- C2, at a concrete input: a visitor whose stored token is gone but whose
user id is still there, and article 5. -/
theorem gated_actions_without_session_witness :
    (truthy staleState.authToken = false ∨ truthyId staleState.currentUserId = false) ∧
    (showPersonalizedFeed staleState (Outcome.rejected "offline")).2 =
      [Effect.toast "Login Required" "Please login to view your personalized feed.",
        Effect.showModal "loginModal"] ∧
    (showMyBookmarks staleState (Outcome.rejected "offline")
        (fun _ => Outcome.rejected "offline")).1 = staleState ∧
    requestsOf (bookmarkArticle staleState 5 (Outcome.rejected "offline")).2 = [] ∧
    viewState (toggleArticleReadStatus staleState 5 true (Outcome.rejected "offline")
        (Outcome.rejected "offline")).1 = viewState staleState := by
  have h := gated_actions_without_session staleState (Or.inl rfl) 5 true
    (Outcome.rejected "offline") (Outcome.rejected "offline") (Outcome.rejected "offline")
    (fun _ => Outcome.rejected "offline")
  refine ⟨Or.inl rfl, ?_, h.2.1.2.2.1, h.2.2.1.1, h.2.2.2.2.2.2⟩
  obtain ⟨m, hm⟩ := h.1.2.1
  rw [hm]
  have hd : (showPersonalizedFeed staleState (Outcome.rejected "offline")).2 =
      [Effect.toast "Login Required" "Please login to view your personalized feed.",
        Effect.showModal "loginModal"] := by decide
  rw [hd] at hm
  rw [← hm]

/-- On a response that is not ok whose body decodes to an object with a
non-empty `message`, the read paths fail with that message. -/
theorem readResponse_message {α : Type} (status : Nat) (m : String) (data : α)
    (hs : ¬ (200 ≤ status ∧ status ≤ 299)) (hm : m ≠ "") :
    readResponse (Outcome.resolved
      { status := status, json := Except.ok { message := some m, data := data } })
      = Except.error m := by
  have hok : (decide (200 ≤ status) && decide (status ≤ 299)) = false := by
    by_contra hne
    simp at hne
    exact hs hne
  simp [readResponse, Response.ok, hok, orElse, truthyStr, hm]

/-- C6 at the failing input: on a 502 response with an undecodable body,
`fetchArticles` writes the decoder's message into the grid and
`showArticleDetail` logs it, neither uses the status message, while the
write path of `toggleArticleReadStatus` falls back to the status message. -/
theorem read_path_undecodable_error_body :
    Effect.grid (GridMessage.loadFailed "Unexpected token < in JSON at position 0") ∈
      (fetchArticles anonymousState "/articles/latest" 0 [] "ALL"
        (Outcome.resolved (badGateway (PageData Article)))).2 ∧
    Effect.grid (GridMessage.loadFailed "HTTP error! status: 502") ∉
      (fetchArticles anonymousState "/articles/latest" 0 [] "ALL"
        (Outcome.resolved (badGateway (PageData Article)))).2 ∧
    Effect.consoleError "Error fetching article details for modal:"
        "Unexpected token < in JSON at position 0" ∈
      (showArticleDetail anonymousState 5 (Outcome.resolved (badGateway Article))).2 ∧
    Effect.consoleError "Error fetching article details for modal:"
        "HTTP error! status: 502" ∉
      (showArticleDetail anonymousState 5 (Outcome.resolved (badGateway Article))).2 ∧
    writeFailureMessage (badGateway Unit) = "HTTP error! status: 502" := by
  refine ⟨?_, ?_, ?_, ?_, ?_⟩
  · simp [fetchArticles, fetchArticlesStart, fetchArticlesFinish, readResponse, badGateway,
      Response.ok]
  · simp [fetchArticles, fetchArticlesStart, fetchArticlesFinish, readResponse, badGateway,
      Response.ok]
  · simp [showArticleDetail, readResponse, badGateway, Response.ok]
  · simp [showArticleDetail, readResponse, badGateway, Response.ok, anonymousState, truthy]
  · simp [writeFailureMessage, badGateway, httpErrorMessage]
    decide

/-! ## Theorems: pagination -/

theorem window_bounds (n tp : Int) (h0 : 0 ≤ n) (hlt : n < tp) :
    0 ≤ startPage n tp ∧ startPage n tp ≤ n ∧ n ≤ endPage n tp ∧ endPage n tp ≤ tp - 1 ∧
      endPage n tp - startPage n tp + 1 ≤ 5 := by
  simp only [startPage, endPage, maxPagesToShow]
  norm_num
  split <;> omega

theorem mem_loopPages (first last i : Int) :
    i ∈ loopPages first last ↔ first ≤ i ∧ i ≤ last := by
  simp only [loopPages, List.mem_map, List.mem_range]
  constructor
  · rintro ⟨k, hk, rfl⟩
    omega
  · rintro ⟨h1, h2⟩
    refine ⟨(i - first).toNat, ?_, ?_⟩ <;> omega

theorem nodup_loopPages (first last : Int) : (loopPages first last).Nodup := by
  unfold loopPages
  refine List.Nodup.map ?_ (List.nodup_range _)
  intro a b hab
  simp at hab
  exact hab

theorem length_loopPages (first last : Int) :
    (loopPages first last).length = (last - first + 1).toNat := by
  simp [loopPages]

theorem renderPagination_eq {α : Type} (before : List Button) (data : PageData α)
    (ep : String) (ps : Params) (f : String) (tp n : Int)
    (htp : data.totalPages = some tp) (hn : data.number = some n) (h1 : 1 < tp) :
    renderPagination before data ep ps f =
      (if n > 0 then [previousButton n ep ps f] else [])
        ++ (loopPages (startPage n tp) (endPage n tp)).map (fun i => pageButton n i ep ps f)
        ++ (if n < tp - 1 then [nextButton n ep ps f] else []) := by
  have hc : ¬ (tp = 0 ∨ tp ≤ 1) := by omega
  simp [renderPagination, htp, hn, hc]

theorem pageNumberControls_renderPagination {α : Type} (before : List Button)
    (data : PageData α) (ep : String) (ps : Params) (f : String) (tp n : Int)
    (htp : data.totalPages = some tp) (hn : data.number = some n) (h1 : 1 < tp) :
    pageNumberControls (renderPagination before data ep ps f) =
      (loopPages (startPage n tp) (endPage n tp)).map (fun i => pageButton n i ep ps f) := by
  rw [renderPagination_eq before data ep ps f tp n htp hn h1]
  unfold pageNumberControls
  rw [List.filter_append, List.filter_append]
  have hp : List.filter (fun b => decide (b.kind = ControlKind.pageNumber))
      (if n > 0 then [previousButton n ep ps f] else []) = [] := by
    split <;> simp [previousButton]
  have hx : List.filter (fun b => decide (b.kind = ControlKind.pageNumber))
      (if n < tp - 1 then [nextButton n ep ps f] else []) = [] := by
    split <;> simp [nextButton]
  rw [hp, hx, List.append_nil, List.nil_append]
  rw [List.filter_eq_self]
  intro b hb
  obtain ⟨i, _, rfl⟩ := List.mem_map.mp hb
  simp [pageButton]

theorem highlighted_pageButton (n i : Int) (ep : String) (ps : Params) (f : String) :
    (pageButton n i ep ps f).highlighted = decide (i = n) := by
  unfold pageButton Button.highlighted
  by_cases h : i = n
  · simp [h]
  · have hne : plainClass ≠ activeClass := by decide
    simp [h, hne]

theorem filter_eq_singleton (l : List Int) (n : Int) (hnd : l.Nodup) (hmem : n ∈ l) :
    l.filter (fun i => decide (i = n)) = [n] := by
  induction l with
  | nil => simp at hmem
  | cons a rest ih =>
    rw [List.nodup_cons] at hnd
    by_cases ha : a = n
    · subst ha
      have hrest : rest.filter (fun i => decide (i = a)) = [] := by
        rw [List.filter_eq_nil_iff]
        intro i hi
        simp only [decide_eq_true_eq]
        intro hia
        exact hnd.1 (hia ▸ hi)
      simp [hrest]
    · have hm : n ∈ rest := by
        rcases List.mem_cons.mp hmem with h | h
        · exact absurd h.symm ha
        · exact h
      simp [ha, ih hnd.2 hm]

/-- C7: for a page with more than one page in total and a current index
inside `[0, totalPages)`, the page-number controls of `renderPagination` are
the consecutive indices `first..last` with
`0 ≤ first ≤ number ≤ last ≤ totalPages - 1`, there are at most five of them,
and the highlighted ones among them are exactly one, the control of the
current index. -/
theorem renderPagination_window {α : Type} (before : List Button) (data : PageData α)
    (ep : String) (ps : Params) (f : String) (tp n : Int)
    (htp : data.totalPages = some tp) (hn : data.number = some n)
    (h1 : 1 < tp) (h0 : 0 ≤ n) (hlt : n < tp) :
    ∃ first last : Int,
      (pageNumberControls (renderPagination before data ep ps f)).map Button.page =
        (List.range (last - first + 1).toNat).map (fun (k : Nat) => first + (k : Int)) ∧
      0 ≤ first ∧ first ≤ n ∧ n ≤ last ∧ last ≤ tp - 1 ∧
      (pageNumberControls (renderPagination before data ep ps f)).length ≤ 5 ∧
      ((pageNumberControls (renderPagination before data ep ps f)).filter
        Button.highlighted).map Button.page = [n] := by
  obtain ⟨b1, b2, b3, b4, b5⟩ := window_bounds n tp h0 hlt
  refine ⟨startPage n tp, endPage n tp, ?_, b1, b2, b3, b4, ?_, ?_⟩
  · rw [pageNumberControls_renderPagination before data ep ps f tp n htp hn h1]
    rw [List.map_map]
    have : (Button.page ∘ fun i => pageButton n i ep ps f) = id := by
      funext i
      simp [pageButton]
    rw [this, List.map_id]
    rfl
  · rw [pageNumberControls_renderPagination before data ep ps f tp n htp hn h1]
    rw [List.length_map, length_loopPages]
    omega
  · rw [pageNumberControls_renderPagination before data ep ps f tp n htp hn h1]
    rw [List.filter_map]
    have hf : (Button.highlighted ∘ fun i => pageButton n i ep ps f)
        = fun i => decide (i = n) := by
      funext i
      simp [highlighted_pageButton]
    rw [hf, filter_eq_singleton _ n (nodup_loopPages _ _)
      ((mem_loopPages _ _ _).mpr ⟨b2, b3⟩)]
    simp [pageButton]

/-- C7, at a concrete input: page 18 of 20, whose window is clamped at the
end. -/
theorem renderPagination_window_witness :
    ∃ first last : Int,
      (pageNumberControls (renderPagination [] (pageOf 18 20) "/articles/latest" []
          "ALL")).map Button.page =
        (List.range (last - first + 1).toNat).map (fun (k : Nat) => first + (k : Int)) ∧
      0 ≤ first ∧ first ≤ 18 ∧ 18 ≤ last ∧ last ≤ 20 - 1 ∧
      (pageNumberControls (renderPagination [] (pageOf 18 20) "/articles/latest" []
          "ALL")).length ≤ 5 ∧
      ((pageNumberControls (renderPagination [] (pageOf 18 20) "/articles/latest" []
          "ALL")).filter Button.highlighted).map Button.page = [18] :=
  renderPagination_window [] (pageOf 18 20) "/articles/latest" [] "ALL" 20 18 rfl rfl
    (by decide) (by decide) (by decide)

theorem loopPages_five (n : Int) :
    loopPages (n - 2) (n + 2) = [n - 2, n - 1, n, n + 1, n + 2] := by
  have h : (n + 2 - (n - 2) + 1).toNat = 5 := by omega
  have hr : List.range 5 = [0, 1, 2, 3, 4] := by decide
  unfold loopPages
  rw [h, hr]
  simp only [List.map_cons, List.map_nil]
  have e0 : n - 2 + ((0 : Nat) : Int) = n - 2 := by omega
  have e1 : n - 2 + ((1 : Nat) : Int) = n - 1 := by omega
  have e2 : n - 2 + ((2 : Nat) : Int) = n := by omega
  have e3 : n - 2 + ((3 : Nat) : Int) = n + 1 := by omega
  have e4 : n - 2 + ((4 : Nat) : Int) = n + 2 := by omega
  rw [e0, e1, e2, e3, e4]

/-- C8: with at least five pages in total and a current index at least two
away from both ends, `renderPagination` emits the Previous control, exactly
the five page-number controls of the indices `number - 2 .. number + 2`, and
the Next control. -/
theorem renderPagination_centered {α : Type} (before : List Button) (data : PageData α)
    (ep : String) (ps : Params) (f : String) (tp n : Int)
    (htp : data.totalPages = some tp) (hn : data.number = some n)
    (h5 : 5 ≤ tp) (h2 : 2 ≤ n) (h3 : n ≤ tp - 3) :
    renderPagination before data ep ps f =
      [previousButton n ep ps f]
        ++ [n - 2, n - 1, n, n + 1, n + 2].map (fun i => pageButton n i ep ps f)
        ++ [nextButton n ep ps f] ∧
    (pageNumberControls (renderPagination before data ep ps f)).map Button.page =
      [n - 2, n - 1, n, n + 1, n + 2] ∧
    (pageNumberControls (renderPagination before data ep ps f)).length = 5 := by
  have h1 : 1 < tp := by omega
  have hs : startPage n tp = n - 2 := by
    simp only [startPage, maxPagesToShow]
    norm_num
    split <;> omega
  have he : endPage n tp = n + 2 := by
    simp only [endPage, maxPagesToShow]
    norm_num
    omega
  have hpos : n > 0 := by omega
  have hnext : n < tp - 1 := by omega
  refine ⟨?_, ?_, ?_⟩
  · rw [renderPagination_eq before data ep ps f tp n htp hn h1, hs, he, loopPages_five,
      if_pos hpos, if_pos hnext]
  · rw [pageNumberControls_renderPagination before data ep ps f tp n htp hn h1, hs, he,
      loopPages_five]
    simp [pageButton]
  · rw [pageNumberControls_renderPagination before data ep ps f tp n htp hn h1, hs, he,
      loopPages_five]
    simp

/-- C8, at the input of the specification: page 10 of 20 gives Previous, the
five page buttons 8..12 and Next. -/
theorem renderPagination_centered_witness :
    (renderPagination [] (pageOf 10 20) "/articles/latest" [] "ALL" =
      [previousButton 10 "/articles/latest" [] "ALL"]
        ++ [10 - 2, 10 - 1, 10, 10 + 1, 10 + 2].map
            (fun i => pageButton 10 i "/articles/latest" [] "ALL")
        ++ [nextButton 10 "/articles/latest" [] "ALL"] ∧
    (pageNumberControls (renderPagination [] (pageOf 10 20) "/articles/latest" []
        "ALL")).map Button.page = [10 - 2, 10 - 1, 10, 10 + 1, 10 + 2] ∧
    (pageNumberControls (renderPagination [] (pageOf 10 20) "/articles/latest" []
        "ALL")).length = 5) ∧
    (renderPagination [] (pageOf 10 20) "/articles/latest" [] "ALL").map Button.kind =
      [ControlKind.previous, ControlKind.pageNumber, ControlKind.pageNumber,
        ControlKind.pageNumber, ControlKind.pageNumber, ControlKind.pageNumber,
        ControlKind.next] ∧
    (renderPagination [] (pageOf 10 20) "/articles/latest" [] "ALL").map Button.page =
      [9, 8, 9, 10, 11, 12, 11] :=
  ⟨renderPagination_centered [] (pageOf 10 20) "/articles/latest" [] "ALL" 20 10 rfl rfl
    (by decide) (by decide) (by decide), by decide, by decide⟩

/-- C9: for a page with more than one page in total, `renderPagination` emits
a Previous control exactly when `number > 0`, and it targets `number - 1`; it
emits a Next control exactly when `number < totalPages - 1`, and it targets
`number + 1`; there is never more than one of either. -/
theorem renderPagination_previous_next {α : Type} (before : List Button)
    (data : PageData α) (ep : String) (ps : Params) (f : String) (tp n : Int)
    (htp : data.totalPages = some tp) (hn : data.number = some n) (h1 : 1 < tp) :
    ((∃ b ∈ renderPagination before data ep ps f, b.kind = ControlKind.previous) ↔ n > 0) ∧
    ((∃ b ∈ renderPagination before data ep ps f, b.kind = ControlKind.next) ↔
      n < tp - 1) ∧
    ((renderPagination before data ep ps f).filter
        (fun b => decide (b.kind = ControlKind.previous))).map Button.page =
      (if n > 0 then [n - 1] else []) ∧
    ((renderPagination before data ep ps f).filter
        (fun b => decide (b.kind = ControlKind.next))).map Button.page =
      (if n < tp - 1 then [n + 1] else []) := by
  rw [renderPagination_eq before data ep ps f tp n htp hn h1]
  have hpages : ∀ k : ControlKind, k ≠ ControlKind.pageNumber →
      List.filter (fun b => decide (b.kind = k))
        ((loopPages (startPage n tp) (endPage n tp)).map
          (fun i => pageButton n i ep ps f)) = [] := by
    intro k hk
    rw [List.filter_eq_nil_iff]
    intro b hb
    obtain ⟨i, _, rfl⟩ := List.mem_map.mp hb
    simp only [pageButton, decide_eq_true_eq]
    exact fun h => hk h.symm
  have hmem : ∀ k : ControlKind, k ≠ ControlKind.pageNumber →
      ∀ b ∈ (loopPages (startPage n tp) (endPage n tp)).map
        (fun i => pageButton n i ep ps f), b.kind ≠ k := by
    intro k hk b hb
    obtain ⟨i, _, rfl⟩ := List.mem_map.mp hb
    simp only [pageButton]
    exact fun h => hk h.symm
  refine ⟨?_, ?_, ?_, ?_⟩
  · constructor
    · rintro ⟨b, hb, hk⟩
      simp only [List.mem_append] at hb
      rcases hb with (hb | hb) | hb
      · by_contra hneg
        rw [if_neg hneg] at hb
        simp at hb
      · exact absurd hk (hmem _ (by decide) b hb)
      · split at hb
        · simp only [List.mem_singleton] at hb
          subst hb
          simp [nextButton] at hk
        · simp at hb
    · intro hpos
      exact ⟨previousButton n ep ps f, by simp [hpos], rfl⟩
  · constructor
    · rintro ⟨b, hb, hk⟩
      simp only [List.mem_append] at hb
      rcases hb with (hb | hb) | hb
      · split at hb
        · simp only [List.mem_singleton] at hb
          subst hb
          simp [previousButton] at hk
        · simp at hb
      · exact absurd hk (hmem _ (by decide) b hb)
      · by_contra hneg
        rw [if_neg hneg] at hb
        simp at hb
    · intro hlt
      exact ⟨nextButton n ep ps f, by simp [hlt], rfl⟩
  · rw [List.filter_append, List.filter_append, hpages _ (by decide)]
    by_cases hpos : n > 0 <;> by_cases hlt : n < tp - 1 <;>
      simp [hpos, hlt, previousButton, nextButton]
  · rw [List.filter_append, List.filter_append, hpages _ (by decide)]
    by_cases hpos : n > 0 <;> by_cases hlt : n < tp - 1 <;>
      simp [hpos, hlt, previousButton, nextButton]

/-- C9, at concrete inputs: the first of three pages has Next to page 1 and
no Previous. -/
theorem renderPagination_previous_next_witness :
    ((∃ b ∈ renderPagination [] (pageOf 0 3) "/articles/latest" [] "ALL",
        b.kind = ControlKind.previous) ↔ (0 : Int) > 0) ∧
    ((∃ b ∈ renderPagination [] (pageOf 0 3) "/articles/latest" [] "ALL",
        b.kind = ControlKind.next) ↔ (0 : Int) < 3 - 1) ∧
    ((renderPagination [] (pageOf 0 3) "/articles/latest" [] "ALL").filter
        (fun b => decide (b.kind = ControlKind.previous))).map Button.page =
      (if (0 : Int) > 0 then [0 - 1] else []) ∧
    ((renderPagination [] (pageOf 0 3) "/articles/latest" [] "ALL").filter
        (fun b => decide (b.kind = ControlKind.next))).map Button.page =
      (if (0 : Int) < 3 - 1 then [0 + 1] else []) :=
  renderPagination_previous_next [] (pageOf 0 3) "/articles/latest" [] "ALL" 3 0 rfl rfl
    (by decide)

/-- C10: when `totalPages` is absent, 0 or 1, `renderPagination` leaves the
pagination list empty, whatever it held before and whatever the other
arguments are: no Previous, no page-number control, no Next. -/
theorem renderPagination_single_page {α : Type} (before : List Button) (data : PageData α)
    (ep : String) (ps : Params) (f : String)
    (h : data.totalPages = none ∨ data.totalPages = some 0 ∨ data.totalPages = some 1) :
    renderPagination before data ep ps f = [] := by
  rcases h with h | h | h <;> simp [renderPagination, h]

/-- C10, at a concrete input: a one-page result replaces the controls left by
an earlier twenty-page listing with nothing. -/
theorem renderPagination_single_page_witness :
    renderPagination (renderPagination [] (pageOf 10 20) "/articles/latest" [] "ALL")
      (pageOf 0 1) "/articles/search" [("keyword", "lean")] "UNREAD" = [] :=
  renderPagination_single_page _ (pageOf 0 1) "/articles/search" [("keyword", "lean")]
    "UNREAD" (Or.inr (Or.inr rfl))

/-! ## Theorems: replaying a listing -/

theorem attributeValue_no_quote (text : String) :
    doubleQuote ∉ (attributeValue text).toList := by
  intro h
  have := List.mem_takeWhile_imp h
  simp at this

theorem doubleQuote_mem_jsonStringifyChars (params : Params) (h : params ≠ []) :
    doubleQuote ∈ jsonStringifyChars params := by
  cases params with
  | nil => exact absurd rfl h
  | cons e rest =>
    cases rest with
    | nil => simp [jsonStringifyChars, jsonQuoteChars, List.intercalate]
    | cons e2 rest2 => simp [jsonStringifyChars, jsonQuoteChars, List.intercalate]

/-- Whenever the parameters are not empty, the handler a control carries is
not the call that was written into its markup: the attribute ends at the
first double quote printed by `JSON.stringify`. -/
theorem handlerSource_ne_onclickText (b : Button) (h : b.params ≠ []) :
    b.handlerSource ≠ b.onclickText := by
  intro heq
  have h1 := attributeValue_no_quote b.onclickText
  have h2 : doubleQuote ∈ b.onclickText.toList := by
    have := doubleQuote_mem_jsonStringifyChars b.params h
    simp [Button.onclickText, jsonStringify, this]
  unfold Button.handlerSource at heq
  rw [heq] at h1
  exact h1 h2

/-- C11 at the failing input: for the search listing with
`params = {keyword: "lean"}`, every control of `renderPagination` is given the
parameters to replay, but the handler its double-quoted `onclick` attribute
carries stops right after the opening brace of the parameters, so it is not
the call of `fetchArticles` that was written; with empty parameters the
handler is the whole call. -/
theorem pagination_handler_cut_at_params :
    (∀ b ∈ renderPagination [] (pageOf 1 3) "/articles/search" [("keyword", "lean")] "UNREAD",
      b.params = [("keyword", "lean")] ∧
      b.handlerSource =
        "fetchArticles(" ++ String.singleton singleQuote ++ "/articles/search"
          ++ String.singleton singleQuote ++ ", " ++ toString b.page ++ ", \x7b" ∧
      b.handlerSource ≠ b.onclickText) ∧
    (∀ b ∈ renderPagination [] (pageOf 1 3) "/articles/latest" [] "UNREAD",
      b.handlerSource = b.onclickText) := by
  decide

/-! ## Theorems: bookmarks -/

theorem articlesRendered_append (a b : List Effect) :
    articlesRendered (a ++ b) = articlesRendered a ++ articlesRendered b := by
  simp [articlesRendered, List.filterMap_append]

theorem toastsOf_append (a b : List Effect) :
    toastsOf (a ++ b) = toastsOf a ++ toastsOf b := by
  simp [toastsOf, List.filterMap_append]

theorem detailLog_cases (id : Int) (outcome : Outcome Article) :
    ∀ e ∈ detailLog id outcome, ∃ label detail, e = Effect.consoleError label detail := by
  intro e he
  unfold detailLog at he
  split at he
  · simp at he
    exact ⟨_, _, he⟩
  · split at he
    · simp at he
      exact ⟨_, _, he⟩
    · split at he
      · simp at he
        exact ⟨_, _, he⟩
      · simp at he

theorem detailLogs_quiet (ids : List Int) (detail : Int → Outcome Article) :
    articlesRendered ((ids.map (fun id => detailLog id (detail id))).flatten) = [] ∧
    toastsOf ((ids.map (fun id => detailLog id (detail id))).flatten) = [] ∧
    ∀ m, Effect.grid m ∉ (ids.map (fun id => detailLog id (detail id))).flatten := by
  have hall : ∀ e ∈ (ids.map (fun id => detailLog id (detail id))).flatten,
      ∃ label d, e = Effect.consoleError label d := by
    intro e he
    simp only [List.mem_flatten, List.mem_map] at he
    obtain ⟨l, ⟨id, _, rfl⟩, hel⟩ := he
    exact detailLog_cases id (detail id) e hel
  refine ⟨?_, ?_, ?_⟩
  · unfold articlesRendered
    rw [List.filterMap_eq_nil_iff.mpr]
    · rfl
    · intro e he
      obtain ⟨l, d, rfl⟩ := hall e he
      rfl
  · unfold toastsOf
    rw [List.filterMap_eq_nil_iff]
    intro e he
    obtain ⟨l, d, rfl⟩ := hall e he
    rfl
  · intro m hm
    obtain ⟨l, d, h⟩ := hall _ hm
    cases h

theorem detailFetches_quiet (ids : List Int) (request : Int → Request) :
    articlesRendered (ids.map (fun id => Effect.fetch (request id))) = [] ∧
    toastsOf (ids.map (fun id => Effect.fetch (request id))) = [] ∧
    ∀ m, Effect.grid m ∉ ids.map (fun id => Effect.fetch (request id)) := by
  refine ⟨?_, ?_, ?_⟩
  · unfold articlesRendered
    rw [List.filterMap_eq_nil_iff.mpr]
    · rfl
    · intro e he
      obtain ⟨id, _, rfl⟩ := List.mem_map.mp he
      rfl
  · unfold toastsOf
    rw [List.filterMap_eq_nil_iff]
    intro e he
    obtain ⟨id, _, rfl⟩ := List.mem_map.mp he
    rfl
  · intro m hm
    obtain ⟨id, _, h⟩ := List.mem_map.mp hm
    cases h

theorem detailArticle_eq_some (outcome : Outcome Article) (a : Article) :
    detailArticle outcome = some a ↔
      ∃ res body, outcome = Outcome.resolved res ∧ res.ok = true ∧
        res.json = Except.ok body ∧ body.data = a := by
  constructor
  · intro h
    cases outcome with
    | rejected m => simp [detailArticle] at h
    | resolved res =>
      unfold detailArticle at h
      by_cases hok : res.ok = true
      · simp only [hok, Bool.not_true, Bool.false_eq_true, if_false] at h
        cases hj : res.json with
        | error m => simp [hj] at h
        | ok body =>
          simp only [hj, Option.some.injEq] at h
          exact ⟨res, body, rfl, hok, hj, h⟩
      · simp [hok] at h
  · rintro ⟨res, body, rfl, hok, hj, rfl⟩
    simp [detailArticle, hok, hj]

/-- C12: with a session and a bookmark listing that was read, whatever the
bookmark ids and whatever the outcome of each detail request, the articles
`showMyBookmarks` hands to the renderer are exactly those of the detail
requests that resolved with an ok, decodable response, in bookmark order (with
`isRead` filled in when absent), the others being dropped; no toast is shown
and no failure message is written into the grid; and when there is at least
one bookmark the renderer is called with that list. -/
theorem showMyBookmarks_partial_results (s : State)
    (hs : truthy s.authToken = true) (hid : truthyId s.currentUserId = true)
    (res : Response (PageData Bookmark)) (hok : res.ok = true)
    (body : Body (PageData Bookmark)) (hj : res.json = Except.ok body)
    (entries : List Bookmark) (hc : body.data.content = some entries)
    (detail : Int → Outcome Article) :
    articlesRendered (showMyBookmarks s (Outcome.resolved res) detail).2 =
      ((entries.map (fun b => b.id)).filterMap (fun id => detailArticle (detail id))).map
        assumeRead ∧
    (∀ id a, detailArticle (detail id) = some a ↔
      ∃ r b, detail id = Outcome.resolved r ∧ r.ok = true ∧ r.json = Except.ok b ∧
        b.data = a) ∧
    toastsOf (showMyBookmarks s (Outcome.resolved res) detail).2 = [] ∧
    (∀ m, Effect.grid (GridMessage.bookmarksFailed m) ∉
      (showMyBookmarks s (Outcome.resolved res) detail).2) ∧
    (entries ≠ [] →
      Effect.renderArticles
        (((entries.map (fun b => b.id)).filterMap (fun id => detailArticle (detail id))).map
          assumeRead) ∈ (showMyBookmarks s (Outcome.resolved res) detail).2) := by
  have hg : (!truthy s.authToken || !truthyId s.currentUserId) = false := by simp [hs, hid]
  have hr : readResponse (Outcome.resolved res) = Except.ok body.data := by
    simp [readResponse, hok, hj]
  have hq := detailLogs_quiet (entries.map (fun b => b.id)) detail
  have hf := detailFetches_quiet (entries.map (fun b => b.id))
    (fun id => bearerRequest s "GET" (s.origin ++ API_BASE ++ "/articles/" ++ toString id))
  refine ⟨?_, fun id a => detailArticle_eq_some (detail id) a, ?_, ?_, ?_⟩
  · unfold showMyBookmarks
    simp only [hg, hr, hc]
    by_cases hl : (entries.map (fun b => b.id)).length = 0
    · have he : entries = [] := by
        cases entries with
        | nil => rfl
        | cons b rest => simp at hl
      subst he
      simp [articlesRendered]
    · simp only [hl, Bool.false_eq_true, if_false]
      rw [articlesRendered_append, articlesRendered_append, articlesRendered_append,
        hq.1, hf.1]
      simp [articlesRendered]
  · unfold showMyBookmarks
    simp only [hg, hr, hc]
    by_cases hl : (entries.map (fun b => b.id)).length = 0
    · simp [hl, toastsOf]
    · simp only [hl, Bool.false_eq_true, if_false]
      rw [toastsOf_append, toastsOf_append, toastsOf_append, hq.2.1, hf.2.1]
      simp [toastsOf]
  · intro m hm
    unfold showMyBookmarks at hm
    simp only [hg, hr, hc] at hm
    by_cases hl : (entries.map (fun b => b.id)).length = 0
    · simp [hl] at hm
    · simp only [hl, Bool.false_eq_true, if_false, List.mem_append] at hm
      rcases hm with ((hm | hm) | hm) | hm
      · simp at hm
      · exact hf.2.2 _ hm
      · exact hq.2.2 _ hm
      · simp at hm
  · intro hne
    have hl : ¬ (entries.map (fun b => b.id)).length = 0 := by
      cases entries with
      | nil => exact absurd rfl hne
      | cons b rest => simp
    unfold showMyBookmarks
    simp only [hg, hr, hc, hl, Bool.false_eq_true, if_false]
    simp

/-- C12, at the input of the specification: three bookmarks, the detail
request of the second answered with 404; the articles of the first and the
third are the ones rendered. -/
theorem showMyBookmarks_partial_results_witness :
    articlesRendered (showMyBookmarks memberState
        (Outcome.resolved (okResponse threeBookmarks)) secondFails).2 =
      [assumeRead (plainArticle 1 "story"), assumeRead (plainArticle 3 "story")] ∧
    toastsOf (showMyBookmarks memberState
        (Outcome.resolved (okResponse threeBookmarks)) secondFails).2 = [] := by
  have h := showMyBookmarks_partial_results memberState rfl rfl
    (okResponse threeBookmarks) rfl _ rfl [{ id := 1 }, { id := 2 }, { id := 3 }] rfl
    secondFails
  refine ⟨?_, h.2.2.1⟩
  rw [h.1]
  decide

/-- C13: with a session, when the bookmark POST is answered with status 409,
`bookmarkArticle` sends that one request and shows the one toast
`Already Bookmarked`, whatever the body of the response holds or fails to
decode to, and leaves the state as it was. -/
theorem bookmarkArticle_conflict (s : State)
    (hs : truthy s.authToken = true) (hid : truthyId s.currentUserId = true)
    (articleId : Int) (json : Except String (Body Unit)) :
    bookmarkArticle s articleId (Outcome.resolved { status := 409, json := json }) =
      (s, [Effect.fetch (bearerRequest s "POST"
            (s.origin ++ API_BASE ++ "/bookmarks?articleId=" ++ toString articleId)),
          Effect.toast "Already Bookmarked" "This article is already in your bookmarks."]) ∧
    toastsOf (bookmarkArticle s articleId
        (Outcome.resolved { status := 409, json := json })).2 =
      [("Already Bookmarked", "This article is already in your bookmarks.")] ∧
    requestsOf (bookmarkArticle s articleId
        (Outcome.resolved { status := 409, json := json })).2 =
      [bearerRequest s "POST"
        (s.origin ++ API_BASE ++ "/bookmarks?articleId=" ++ toString articleId)] := by
  have hg : (!truthy s.authToken || !truthyId s.currentUserId) = false := by simp [hs, hid]
  have hb : bookmarkArticle s articleId (Outcome.resolved { status := 409, json := json }) =
      (s, [Effect.fetch (bearerRequest s "POST"
            (s.origin ++ API_BASE ++ "/bookmarks?articleId=" ++ toString articleId)),
          Effect.toast "Already Bookmarked" "This article is already in your bookmarks."]) := by
    simp [bookmarkArticle, hg, Response.ok]
  rw [hb]
  simp [toastsOf, requestsOf]

/-- C13, at a concrete input: a member bookmarks article 5 again and the
response has no decodable body. -/
theorem bookmarkArticle_conflict_witness :
    toastsOf (bookmarkArticle memberState 5
        (Outcome.resolved { status := 409, json := Except.error "no body" })).2 =
      [("Already Bookmarked", "This article is already in your bookmarks.")] :=
  (bookmarkArticle_conflict memberState rfl rfl 5 (Except.error "no body")).2.1

/-! ## Theorems: the view state -/

/-- After `fetchArticles` the view state is the four arguments of the call. -/
theorem fetchArticles_viewState (s : State) (endpoint : String) (page : Int)
    (params : Params) (f : String) (outcome : Outcome (PageData Article)) :
    viewState (fetchArticles s endpoint page params f outcome).1 =
      (endpoint, page, params, f) := by
  unfold fetchArticles fetchArticlesStart fetchArticlesFinish
  cases readResponse outcome <;> simp [viewState]

/-- The replay of the view state left by `fetchArticles` sends the request
of that call again. -/
theorem fetchArticles_replay (s : State) (endpoint : String) (page : Int)
    (params : Params) (f : String) (outcome replay : Outcome (PageData Article)) :
    requestsOf (fetchArticles (fetchArticles s endpoint page params f outcome).1
        (fetchArticles s endpoint page params f outcome).1.currentEndpoint
        (fetchArticles s endpoint page params f outcome).1.currentPage
        (fetchArticles s endpoint page params f outcome).1.currentParams
        (fetchArticles s endpoint page params f outcome).1.currentReadStatusFilter replay).2 =
      requestsOf (fetchArticles s endpoint page params f outcome).2 := by
  have hv := fetchArticles_viewState s endpoint page params f outcome
  simp only [viewState, Prod.mk.injEq] at hv
  obtain ⟨h1, h2, h3, h4⟩ := hv
  rw [h1, h2, h3, h4, fetchArticles_requests, fetchArticles_requests]
  have ht : (fetchArticles s endpoint page params f outcome).1.authToken = s.authToken := by
    unfold fetchArticles fetchArticlesStart fetchArticlesFinish
    cases readResponse outcome <;> simp
  have ho : (fetchArticles s endpoint page params f outcome).1.origin = s.origin := by
    unfold fetchArticles fetchArticlesStart fetchArticlesFinish
    cases readResponse outcome <;> simp
  simp [fetchArticlesRequest, fetchArticlesUrl, authHeaders, ht, ho]

/-- C14 at the failing input: a member looking at the latest articles opens
the bookmarks; two bookmarked articles are loaded into the grid, the view
state still describes the latest articles, and the replay that follows a
read-status change requests `/articles/latest`, not the bookmark listing. -/
theorem showMyBookmarks_keeps_view_state :
    articlesRendered (showMyBookmarks memberState
        (Outcome.resolved (okResponse threeBookmarks)) secondFails).2 =
      [assumeRead (plainArticle 1 "story"), assumeRead (plainArticle 3 "story")] ∧
    (requestsOf (showMyBookmarks memberState
        (Outcome.resolved (okResponse threeBookmarks)) secondFails).2).map
        (fun r => r.url.address) =
      ["http://localhost:8080/bookmarks/my-bookmarks", "http://localhost:8080/articles/1",
        "http://localhost:8080/articles/2", "http://localhost:8080/articles/3"] ∧
    viewState (showMyBookmarks memberState
        (Outcome.resolved (okResponse threeBookmarks)) secondFails).1 =
      ("/articles/latest", 0, [], "UNREAD") ∧
    (requestsOf (toggleArticleReadStatus
        (showMyBookmarks memberState
          (Outcome.resolved (okResponse threeBookmarks)) secondFails).1
        1 false (Outcome.resolved (okResponse ())) (Outcome.rejected "offline")).2).map
        (fun r => (r.method, r.url.address)) =
      [("PUT", "http://localhost:8080/articles/1/read-status?markAsRead=false"),
        ("GET", "http://localhost:8080/articles/latest")] := by
  decide

/-- Top Headlines, Most Viewed, Latest and Search request page 0 with the
filter selected in the `read-status-filter` control. -/
theorem navigation_keeps_selected_filter (s : State) (keyword category : String)
    (outcome : Outcome (PageData Article)) :
    (∀ r ∈ [loadTopHeadlines s outcome, loadMostViewed s outcome, loadLatestNews s outcome,
        searchNews s keyword category outcome],
      r.1.currentPage = 0 ∧ r.1.currentReadStatusFilter = selectedReadStatus s) := by
  intro r hr
  simp only [List.mem_cons, List.mem_singleton, List.not_mem_nil, or_false] at hr
  rcases hr with hr | hr | hr | hr <;> subst hr
  · unfold loadTopHeadlines loadFeed loadFeedStart fetchArticlesStart fetchArticlesFinish
    cases readResponse outcome <;> simp
  · unfold loadMostViewed loadFeed loadFeedStart fetchArticlesStart fetchArticlesFinish
    cases readResponse outcome <;> simp
  · unfold loadLatestNews loadFeed loadFeedStart fetchArticlesStart fetchArticlesFinish
    cases readResponse outcome <;> simp
  · have := fetchArticles_viewState s "/articles/search" 0
      ((if truthyStr keyword then [("keyword", keyword)] else [])
        ++ (if truthyStr category then [("category", category)] else []))
      (selectedReadStatus s) outcome
    simp only [viewState, Prod.mk.injEq] at this
    exact ⟨this.2.1, this.2.2.2⟩

/-- C15 at the failing input: a member with the `UNREAD` filter selected
opens the personalized feed; the request carries no `readStatus` parameter and
the current filter becomes `ALL`, while the Latest button in the same state
requests `readStatus=UNREAD` and keeps the filter. -/
theorem showPersonalizedFeed_resets_filter :
    selectedReadStatus memberState = "UNREAD" ∧
    memberState.currentReadStatusFilter = "UNREAD" ∧
    (requestsOf (showPersonalizedFeed memberState (Outcome.rejected "offline")).2).map
        (fun r => (r.url.address, r.url.searchParams)) =
      [("http://localhost:8080/articles/personalized", [("page", "0"), ("size", "12")])] ∧
    (showPersonalizedFeed memberState
        (Outcome.rejected "offline")).1.currentReadStatusFilter = "ALL" ∧
    (requestsOf (loadLatestNews memberState (Outcome.rejected "offline")).2).map
        (fun r => (r.url.address, r.url.searchParams)) =
      [("http://localhost:8080/articles/latest",
        [("page", "0"), ("size", "12"), ("readStatus", "UNREAD")])] ∧
    (loadLatestNews memberState
        (Outcome.rejected "offline")).1.currentReadStatusFilter = "UNREAD" := by
  decide

/-! ## Theorems: a failed read-status change -/

/-- C16: with a session, when the read-status PUT is rejected or answered
with a response that is not ok, `toggleArticleReadStatus` returns the state as
it was (modal read flag, view state and session included), its only request
is the PUT, it touches neither the toggle button nor any card, and it shows
exactly one toast, titled `Error`. -/
theorem toggleArticleReadStatus_failure (s : State)
    (hs : truthy s.authToken = true) (hid : truthyId s.currentUserId = true)
    (articleId : Int) (newStatus : Bool) (outcome : Outcome Unit)
    (listing : Outcome (PageData Article)) (hf : outcome.failed = true) :
    (toggleArticleReadStatus s articleId newStatus outcome listing).1 = s ∧
    (∃ message shown,
      (toggleArticleReadStatus s articleId newStatus outcome listing).2 =
        [Effect.fetch (bearerRequest s "PUT"
            (s.origin ++ API_BASE ++ "/articles/" ++ toString articleId
              ++ "/read-status?markAsRead=" ++ toString newStatus)),
          Effect.consoleError "Error toggling read status:" message,
          Effect.toast "Error" shown]) ∧
    requestsOf (toggleArticleReadStatus s articleId newStatus outcome listing).2 =
      [bearerRequest s "PUT"
        (s.origin ++ API_BASE ++ "/articles/" ++ toString articleId
          ++ "/read-status?markAsRead=" ++ toString newStatus)] ∧
    (∃ shown, toastsOf (toggleArticleReadStatus s articleId newStatus outcome listing).2 =
      [("Error", shown)]) ∧
    (∀ b, Effect.toggleButton b ∉
      (toggleArticleReadStatus s articleId newStatus outcome listing).2) ∧
    (∀ id b, Effect.cardMark id b ∉
      (toggleArticleReadStatus s articleId newStatus outcome listing).2) := by
  have hg : (!truthy s.authToken || !truthyId s.currentUserId) = false := by simp [hs, hid]
  cases outcome with
  | rejected m =>
    simp [toggleArticleReadStatus, hg, requestsOf, toastsOf]
  | resolved res =>
    have hok : res.ok = false := by
      simpa [Outcome.failed] using hf
    simp [toggleArticleReadStatus, hg, hok, requestsOf, toastsOf]

/-- C16, at a concrete input: the PUT for article 5 is answered with 500 and
a message. -/
theorem toggleArticleReadStatus_failure_witness :
    (toggleArticleReadStatus memberState 5 true (Outcome.resolved serverError)
      (Outcome.rejected "offline")).1 = memberState ∧
    toastsOf (toggleArticleReadStatus memberState 5 true (Outcome.resolved serverError)
      (Outcome.rejected "offline")).2 = [("Error", "boom")] := by
  have h := toggleArticleReadStatus_failure memberState rfl rfl 5 true
    (Outcome.resolved serverError) (Outcome.rejected "offline") rfl
  exact ⟨h.1, by decide⟩

/-! ## Theorems: the auth UI -/

theorem fetchArticlesStart_auth (s : State) (endpoint : String) (page : Int)
    (params : Params) (f : String) :
    (fetchArticlesStart s endpoint page params f).1.authToken = s.authToken ∧
    (fetchArticlesStart s endpoint page params f).1.currentUser = s.currentUser ∧
    (fetchArticlesStart s endpoint page params f).1.authButtonsHidden = s.authButtonsHidden ∧
    (fetchArticlesStart s endpoint page params f).1.userMenuHidden = s.userMenuHidden ∧
    (fetchArticlesStart s endpoint page params f).1.readStatusFilterHidden
      = s.readStatusFilterHidden := by
  simp [fetchArticlesStart]

theorem fetchArticlesFinish_auth (s : State) (endpoint : String) (params : Params)
    (f : String) (outcome : Outcome (PageData Article)) :
    (fetchArticlesFinish s endpoint params f outcome).1.authToken = s.authToken ∧
    (fetchArticlesFinish s endpoint params f outcome).1.currentUser = s.currentUser ∧
    (fetchArticlesFinish s endpoint params f outcome).1.authButtonsHidden
      = s.authButtonsHidden ∧
    (fetchArticlesFinish s endpoint params f outcome).1.userMenuHidden = s.userMenuHidden ∧
    (fetchArticlesFinish s endpoint params f outcome).1.readStatusFilterHidden
      = s.readStatusFilterHidden := by
  unfold fetchArticlesFinish
  cases readResponse outcome <;> simp

theorem fetchArticlesFinish_storage (st : Storage) (s : State) (endpoint : String)
    (params : Params) (f : String) (outcome : Outcome (PageData Article)) :
    st.run (fetchArticlesFinish s endpoint params f outcome).2 = st := by
  unfold fetchArticlesFinish
  cases readResponse outcome <;> simp [Storage.run, Storage.apply]

theorem storage_run_append (st : Storage) (a b : List Effect) :
    st.run (a ++ b) = (st.run a).run b := by
  simp [Storage.run, List.foldl_append]

theorem truthy_storedOrNull (v : Option String) : truthy (storedOrNull v) = truthy v := by
  unfold storedOrNull
  by_cases h : truthy v = true
  · rw [if_pos h]
  · rw [if_neg h]
    simp only [Bool.not_eq_true] at h
    rw [h]
    rfl

theorem setAuthUI_consistent (s : State) (h : truthy s.authToken = truthy s.currentUser) :
    authUIConsistent (setAuthUI s) ∧
      truthy (setAuthUI s).authToken = truthy (setAuthUI s).currentUser := by
  unfold setAuthUI authUIConsistent
  by_cases ht : truthy s.authToken = true
  · have hu : truthy s.currentUser = true := by rw [← h]; exact ht
    simp [ht, hu]
  · simp only [Bool.not_eq_true] at ht
    have hu : truthy s.currentUser = false := by rw [← h]; exact ht
    simp [ht, hu]

theorem consistent_of_auth_eq (s t : State) (h : authUIConsistent s)
    (h1 : t.authToken = s.authToken) (h2 : t.authButtonsHidden = s.authButtonsHidden)
    (h3 : t.userMenuHidden = s.userMenuHidden)
    (h4 : t.readStatusFilterHidden = s.readStatusFilterHidden) : authUIConsistent t := by
  unfold authUIConsistent at h ⊢
  rw [h1, h2, h3, h4]
  exact h

theorem loadAfterSetAuthUI (s : State) (outcome : Outcome (PageData Article))
    (h : truthy s.authToken = truthy s.currentUser) :
    authUIConsistent (fetchArticlesFinish
        (loadFeedStart (setAuthUI s) "Latest Headlines" "/articles/latest" "latestNewsBtn").1
        "/articles/latest" [] (selectedReadStatus (setAuthUI s)) outcome).1 ∧
    truthy (fetchArticlesFinish
        (loadFeedStart (setAuthUI s) "Latest Headlines" "/articles/latest" "latestNewsBtn").1
        "/articles/latest" [] (selectedReadStatus (setAuthUI s)) outcome).1.authToken =
      truthy (fetchArticlesFinish
        (loadFeedStart (setAuthUI s) "Latest Headlines" "/articles/latest" "latestNewsBtn").1
        "/articles/latest" [] (selectedReadStatus (setAuthUI s)) outcome).1.currentUser := by
  obtain ⟨hc, hu⟩ := setAuthUI_consistent s h
  have hf := fetchArticlesFinish_auth
    (loadFeedStart (setAuthUI s) "Latest Headlines" "/articles/latest" "latestNewsBtn").1
    "/articles/latest" [] (selectedReadStatus (setAuthUI s)) outcome
  have hs := fetchArticlesStart_auth (setAuthUI s) "/articles/latest" 0 []
    (selectedReadStatus (setAuthUI s))
  have hl : (loadFeedStart (setAuthUI s) "Latest Headlines" "/articles/latest"
      "latestNewsBtn").1 = (fetchArticlesStart (setAuthUI s) "/articles/latest" 0 []
        (selectedReadStatus (setAuthUI s))).1 := rfl
  rw [hl] at hf ⊢
  refine ⟨consistent_of_auth_eq _ _ hc (hf.1.trans hs.1) (hf.2.2.1.trans hs.2.2.1)
    (hf.2.2.2.1.trans hs.2.2.2.1) (hf.2.2.2.2.trans hs.2.2.2.2), ?_⟩
  rw [hf.1, hf.2.1, hs.1, hs.2.1]
  exact hu

/-- From a first page load on an empty storage, through page loads, logouts
and logins whose ok responses carry a token and a user name, the token and
the user name are always held together, and the auth UI then agrees with the
token. -/
theorem reached_invariant (s : State) (st : Storage) (h : Reached s st) :
    (authUIConsistent s ∧ truthy s.authToken = truthy s.currentUser) ∧
      truthy st.token = truthy st.username := by
  induction h with
  | firstVisit page outcome =>
    refine ⟨?_, ?_⟩
    · exact loadAfterSetAuthUI (initialState page emptyStorage) outcome
        (by simp [initialState, truthy_storedOrNull, emptyStorage])
    · unfold pageLoad loadLatestNews loadFeed
      rw [storage_run_append, fetchArticlesFinish_storage]
      simp [loadFeedStart, fetchArticlesStart, Storage.run, Storage.apply, emptyStorage]
  | @reload s0 st0 _ page outcome ih =>
    refine ⟨?_, ?_⟩
    · exact loadAfterSetAuthUI (initialState page st0) outcome
        (by simp [initialState, truthy_storedOrNull, ih.2])
    · unfold pageLoad loadLatestNews loadFeed
      rw [storage_run_append, fetchArticlesFinish_storage]
      simpa [loadFeedStart, fetchArticlesStart, Storage.run, Storage.apply] using ih.2
  | @login s0 st0 _ username password outcome listing hw ih =>
    cases outcome with
    | rejected m =>
      refine ⟨by simpa [login] using ih.1, ?_⟩
      simpa [login, Storage.run, Storage.apply] using ih.2
    | resolved res =>
      cases hj : res.json with
      | error m =>
        refine ⟨by simpa [login, hj] using ih.1, ?_⟩
        simpa [login, hj, Storage.run, Storage.apply] using ih.2
      | ok data =>
        by_cases hok : res.ok = true
        · have hwf : truthy data.data.accessToken = true ∧ truthy data.data.username = true := by
            simp only [wellFormedLogin, hj] at hw
            exact hw hok
          have hl := loadAfterSetAuthUI
            { s0 with authToken := data.data.accessToken, currentUser := data.data.username,
                      currentUserId := data.data.id } listing
            (by simp [hwf.1, hwf.2])
          refine ⟨?_, ?_⟩
          · simpa [login, hj, hok] using hl
          · simp only [login, hj, hok, if_true]
            rw [storage_run_append, storage_run_append, fetchArticlesFinish_storage]
            obtain ⟨a, ha⟩ : ∃ a, data.data.accessToken = some a := by
              cases hd : data.data.accessToken with
              | none => rw [hd] at hwf; simp [truthy] at hwf
              | some a => exact ⟨a, rfl⟩
            obtain ⟨u, hu⟩ : ∃ u, data.data.username = some u := by
              cases hd : data.data.username with
              | none => rw [hd] at hwf; simp [truthy] at hwf
              | some u => exact ⟨u, rfl⟩
            have h1 := hwf.1
            have h2 := hwf.2
            rw [ha] at h1
            rw [hu] at h2
            simp [loadFeedStart, fetchArticlesStart, Storage.run, Storage.apply, stringOf,
              ha, hu, h1, h2]
        · simp only [Bool.not_eq_true] at hok
          refine ⟨by simpa [login, hj, hok] using ih.1, ?_⟩
          simpa [login, hj, hok, Storage.run, Storage.apply] using ih.2
  | @logout s0 st0 _ outcome ih =>
    refine ⟨?_, ?_⟩
    · have hl := loadAfterSetAuthUI
        { s0 with authToken := none, currentUser := none, currentUserId := none } outcome rfl
      simpa [logout] using hl
    · unfold logout
      simp only []
      rw [storage_run_append, storage_run_append, fetchArticlesFinish_storage]
      simp [loadFeedStart, fetchArticlesStart, Storage.run, Storage.apply, truthy]

/-- C17 at the failing inputs: a page load on a `localStorage` that holds a
token and a user id but an empty user name, and a login whose ok response
carries a token and no user name. In both resulting states a token is held,
the listing request carries `Authorization: Bearer tok` and the cards get
their read/unread badge, yet `setAuthUI` has shown the login and register
buttons and hidden the user menu and the read-status filter; the auth UI does
not agree with the session. -/
theorem authUI_shows_login_while_token_held :
    (truthy (pageLoad anonymousState namelessStorage
        (Outcome.rejected "offline")).1.authToken = true ∧
      (pageLoad anonymousState namelessStorage
        (Outcome.rejected "offline")).1.authButtonsHidden = false ∧
      (pageLoad anonymousState namelessStorage
        (Outcome.rejected "offline")).1.userMenuHidden = true ∧
      (pageLoad anonymousState namelessStorage
        (Outcome.rejected "offline")).1.readStatusFilterHidden = true ∧
      (requestsOf (pageLoad anonymousState namelessStorage
        (Outcome.rejected "offline")).2).map (fun r => r.headers) =
        [[("Authorization", "Bearer tok")]] ∧
      (renderCard (pageLoad anonymousState namelessStorage (Outcome.rejected "offline")).1
        (plainArticle 1 "story")).badge.map (fun b => b.text) = some "Unread" ∧
      ¬ authUIConsistent (pageLoad anonymousState namelessStorage
        (Outcome.rejected "offline")).1) ∧
    (truthy (login anonymousState "ann" "pw" (Outcome.resolved (okResponse namelessLogin))
        (Outcome.rejected "offline")).1.authToken = true ∧
      (login anonymousState "ann" "pw" (Outcome.resolved (okResponse namelessLogin))
        (Outcome.rejected "offline")).1.authButtonsHidden = false ∧
      (login anonymousState "ann" "pw" (Outcome.resolved (okResponse namelessLogin))
        (Outcome.rejected "offline")).1.userMenuHidden = true ∧
      (login anonymousState "ann" "pw" (Outcome.resolved (okResponse namelessLogin))
        (Outcome.rejected "offline")).1.readStatusFilterHidden = true ∧
      ¬ authUIConsistent (login anonymousState "ann" "pw"
        (Outcome.resolved (okResponse namelessLogin)) (Outcome.rejected "offline")).1) := by
  refine ⟨⟨by decide, by decide, by decide, by decide, by decide, by decide, ?_⟩,
    ⟨by decide, by decide, by decide, by decide, ?_⟩⟩
  · intro h
    have hb := h.2.2.1 (by decide)
    revert hb
    decide
  · intro h
    have hb := h.2.2.1 (by decide)
    revert hb
    decide

/-! ## Theorems: the article cards -/

theorem renderArticles_cards (s : State) (articles : List Article) (hne : articles ≠ []) :
    renderArticles s articles = GridView.cards (articles.map (renderCard s)) := by
  cases articles with
  | nil => exact absurd rfl hne
  | cons a rest => simp [renderArticles]

theorem forall2_map_of_forall {α β : Type} (R : α → β → Prop) (f : α → β) (l : List α)
    (h : ∀ a, R a (f a)) : List.Forall₂ R l (l.map f) := by
  induction l with
  | nil => exact List.Forall₂.nil
  | cons a rest ih => exact List.Forall₂.cons (h a) ih

theorem startsWith_ne_empty (u head : String) (hh : head ≠ "")
    (h : startsWith u head = true) : u ≠ "" := by
  intro hu
  subst hu
  have hl : head.toList ≠ [] := by
    intro hnil
    apply hh
    cases head with
    | mk data =>
      simp only [String.toList] at hnil
      subst hnil
      rfl
  unfold startsWith at h
  cases hd : head.toList with
  | nil => exact hl hd
  | cons c rest =>
    rw [hd] at h
    simp [String.toList] at h

theorem renderCard_image (s : State) (a : Article) :
    (some (renderCard s a).imageSrc = a.imageUrl ↔
      ∃ u, a.imageUrl = some u ∧
        (startsWith u "http://" = true ∨ startsWith u "https://" = true) ∧
        includes u "via.placeholder.com" = false) ∧
    (some (renderCard s a).imageSrc ≠ a.imageUrl → (renderCard s a).imageSrc = fallbackImage) := by
  have hfi : includes fallbackImage "via.placeholder.com" = false := by decide
  have hfs : startsWith fallbackImage "https://" = true := by decide
  have hfh : startsWith fallbackImage "http://" = false := by decide
  have hft : truthyStr fallbackImage = true := by decide
  have hsrc : (renderCard s a).imageSrc = articleImage (replaceBrokenPlaceholder a.imageUrl) := rfl
  rw [hsrc]
  cases hu : a.imageUrl with
  | none => simp [replaceBrokenPlaceholder, articleImage]
  | some u =>
    by_cases hi : includes u "via.placeholder.com" = true
    · have hne : u ≠ "" := by
        intro h0
        subst h0
        revert hi
        decide
      have hrep : replaceBrokenPlaceholder (some u) = some fallbackImage := by
        simp [replaceBrokenPlaceholder, truthyStr, hne, hi]
      have himg : articleImage (some fallbackImage) = fallbackImage := by
        simp [articleImage, hft, hfs]
      rw [hrep, himg]
      have hdiff : fallbackImage ≠ u := by
        intro h
        rw [← h, hfi] at hi
        exact absurd hi (by decide)
      refine ⟨?_, fun _ => rfl⟩
      constructor
      · intro h
        exact absurd (Option.some.inj h) hdiff
      · rintro ⟨v, hv, _, hvi⟩
        have : v = u := (Option.some.inj hv).symm
        subst this
        rw [hvi] at hi
        exact absurd hi (by decide)
    · simp only [Bool.not_eq_true] at hi
      have hrep : replaceBrokenPlaceholder (some u) = some u := by
        simp [replaceBrokenPlaceholder, hi]
      rw [hrep]
      by_cases hs : startsWith u "http://" = true ∨ startsWith u "https://" = true
      · have hne : u ≠ "" := by
          rcases hs with h | h
          · exact startsWith_ne_empty u "http://" (by decide) h
          · exact startsWith_ne_empty u "https://" (by decide) h
        have himg : articleImage (some u) = u := by
          rcases hs with h | h <;> simp [articleImage, truthyStr, hne, h]
        rw [himg]
        refine ⟨?_, fun h => absurd rfl h⟩
        constructor
        · intro _
          exact ⟨u, rfl, hs, hi⟩
        · intro _
          rfl
      · have h1 : startsWith u "http://" = false := by
          by_contra h
          simp only [Bool.not_eq_false] at h
          exact hs (Or.inl h)
        have h2 : startsWith u "https://" = false := by
          by_contra h
          simp only [Bool.not_eq_false] at h
          exact hs (Or.inr h)
        have himg : articleImage (some u) = fallbackImage := by
          simp [articleImage, h1, h2]
        rw [himg]
        have hdiff : fallbackImage ≠ u := by
          intro h
          rw [← h, hfs] at h2
          exact absurd h2 (by decide)
        refine ⟨?_, fun _ => rfl⟩
        constructor
        · intro h
          exact absurd (Option.some.inj h) hdiff
        · rintro ⟨v, hv, hvs, _⟩
          have : v = u := (Option.some.inj hv).symm
          subst this
          exact absurd hvs hs

/-- C18: `renderArticles` makes one card per article, and the image address
of a card is the `imageUrl` of its article exactly when that address is
present, starts with `http://` or `https://` and does not contain
`via.placeholder.com`; whenever it is not the article's own address it is the
fallback image. -/
theorem renderArticles_image (s : State) (articles : List Article) (hne : articles ≠ []) :
    ∃ cards, renderArticles s articles = GridView.cards cards ∧
      List.Forall₂ (fun a c =>
        (some c.imageSrc = a.imageUrl ↔
          ∃ u, a.imageUrl = some u ∧
            (startsWith u "http://" = true ∨ startsWith u "https://" = true) ∧
            includes u "via.placeholder.com" = false) ∧
        (some c.imageSrc ≠ a.imageUrl → c.imageSrc = fallbackImage)) articles cards := by
  refine ⟨articles.map (renderCard s), renderArticles_cards s articles hne, ?_⟩
  exact forall2_map_of_forall _ (renderCard s) articles (fun a => renderCard_image s a)

/-- C18, at concrete inputs: an article on `via.placeholder.com`, one with
an image of its own and one without an image. -/
theorem renderArticles_image_witness :
    (∃ cards, renderArticles memberState
        [placeholderArticle, pictureArticle, plainArticle 1 "story"] = GridView.cards cards ∧
      List.Forall₂ (fun a c =>
        (some c.imageSrc = a.imageUrl ↔
          ∃ u, a.imageUrl = some u ∧
            (startsWith u "http://" = true ∨ startsWith u "https://" = true) ∧
            includes u "via.placeholder.com" = false) ∧
        (some c.imageSrc ≠ a.imageUrl → c.imageSrc = fallbackImage))
        [placeholderArticle, pictureArticle, plainArticle 1 "story"] cards) ∧
    (match renderArticles memberState
        [placeholderArticle, pictureArticle, plainArticle 1 "story"] with
      | GridView.cards cards => cards.map (fun c => c.imageSrc)
      | GridView.message _ => []) =
      [fallbackImage, "https://news.example.org/a.png", fallbackImage] :=
  ⟨renderArticles_image memberState [placeholderArticle, pictureArticle, plainArticle 1 "story"]
    (by simp), by decide⟩

/-- C19: `renderArticles` makes one card per article; without a token no card
has a read/unread badge, whatever `isRead` is; with a token every card has
its one badge, reading `Read` when `isRead` is true and `Unread` otherwise. -/
theorem renderArticles_badge (s : State) (articles : List Article) (hne : articles ≠ []) :
    ∃ cards, renderArticles s articles = GridView.cards cards ∧
      List.Forall₂ (fun a c =>
        (truthy s.authToken = false → c.badge = none) ∧
        (truthy s.authToken = true →
          ∃ b, c.badge = some b ∧
            b.text = if a.isRead = some true then "Read" else "Unread")) articles cards := by
  refine ⟨articles.map (renderCard s), renderArticles_cards s articles hne, ?_⟩
  refine forall2_map_of_forall _ (renderCard s) articles (fun a => ?_)
  constructor
  · intro h
    simp [renderCard, h]
  · intro h
    cases hr : a.isRead with
    | none => simp [renderCard, h, hr]
    | some b => cases b <;> simp [renderCard, h, hr]

/-- C19, at concrete inputs: the same three articles as a member sees them
and as an anonymous visitor sees them. -/
theorem renderArticles_badge_witness :
    (∃ cards, renderArticles memberState
        [placeholderArticle, pictureArticle, plainArticle 1 "story"] = GridView.cards cards ∧
      List.Forall₂ (fun a c =>
        (truthy memberState.authToken = false → c.badge = none) ∧
        (truthy memberState.authToken = true →
          ∃ b, c.badge = some b ∧
            b.text = if a.isRead = some true then "Read" else "Unread"))
        [placeholderArticle, pictureArticle, plainArticle 1 "story"] cards) ∧
    (match renderArticles memberState
        [placeholderArticle, pictureArticle, plainArticle 1 "story"] with
      | GridView.cards cards => cards.map (fun c => c.badge.map (fun b => b.text))
      | GridView.message _ => []) = [some "Unread", some "Read", some "Unread"] ∧
    (match renderArticles anonymousState
        [placeholderArticle, pictureArticle, plainArticle 1 "story"] with
      | GridView.cards cards => cards.map (fun c => c.badge.map (fun b => b.text))
      | GridView.message _ => []) = [none, none, none] :=
  ⟨renderArticles_badge memberState [placeholderArticle, pictureArticle, plainArticle 1 "story"]
    (by simp), by decide, by decide⟩

end NewsAggregator
